import Mathlib

/-! nxp_simtemp: a shallow embedding of the simulated temperature sensor driver.

The definitions below follow `src/nxp_simtemp.h` and `src/nxp_simtemp.c`.

* `__u32` / `__u64` fields are natural numbers; every C increment on them is
  written with its wrap-around (`u32_inc`, `u32_dec`).
* `__s32` fields are integers; a value stored into one goes through `to_s32`.
* The driver state `struct simtemp_dev` is passed explicitly: a C function
  that mutates `*priv` becomes a function returning the new state.
* What the kernel supplies from outside the driver is an argument of the
  function that consumes it: the clock (`ktime_get_ns`), the random source
  (`get_random_u32`), the outcome of `copy_from_user` / `copy_to_user`, the
  outcome of `kstrtoul` / `kstrtol`, the device-tree node.
* The mutex serialises the callbacks, so one callback is one atomic step.
-/

namespace Simtemp

/-! ## Constants (`nxp_simtemp.h`, errno, poll bits) -/

/-- Capacity of the sample ring: `#define SIMTEMP_MAX_SAMPLES 32`. -/
def SIMTEMP_MAX_SAMPLES : Nat := 32

/-- Operation mode `MODE_NORMAL = 0`. -/
def MODE_NORMAL : Nat := 0
/-- Operation mode `MODE_NOISY = 1`. -/
def MODE_NOISY : Nat := 1
/-- Operation mode `MODE_RAMP = 2`. -/
def MODE_RAMP : Nat := 2
/-- Enumerator `MODE_MAX`, the first invalid mode value. -/
def MODE_MAX : Nat := 3

/-- Flag bit `FLAG_NEW_SAMPLE = (1 << 0)`. -/
def FLAG_NEW_SAMPLE : Nat := 1 <<< 0
/-- Flag bit `FLAG_THRESHOLD_CROSSED = (1 << 1)`. -/
def FLAG_THRESHOLD_CROSSED : Nat := 1 <<< 1

/-- Command number `_IOW('S', 1, __u32)` in the generic ioctl encoding. -/
def SIMTEMP_SET_SAMPLING : Nat := 0x40045301
/-- Command number `_IOW('S', 2, __s32)` in the generic ioctl encoding. -/
def SIMTEMP_SET_THRESHOLD : Nat := 0x40045302
/-- Command number `_IOW('S', 3, __u32)` in the generic ioctl encoding. -/
def SIMTEMP_SET_MODE : Nat := 0x40045303
/-- Command number `_IOR('S', 4, struct simtemp_stats)` in the generic ioctl encoding. -/
def SIMTEMP_GET_STATS : Nat := 0x80105304

/-- Errno value `EAGAIN`. -/
def EAGAIN : Int := 11
/-- Errno value `EFAULT`. -/
def EFAULT : Int := 14
/-- Errno value `EINVAL`. -/
def EINVAL : Int := 22
/-- Errno value `ENOTTY`. -/
def ENOTTY : Int := 25
/-- Errno value `ERESTARTSYS`. -/
def ERESTARTSYS : Int := 512

/-- Poll bit `EPOLLIN`. -/
def EPOLLIN : Nat := 0x1
/-- Poll bit `EPOLLPRI`. -/
def EPOLLPRI : Nat := 0x2
/-- Poll bit `EPOLLRDNORM`. -/
def EPOLLRDNORM : Nat := 0x40

/-- Size in bytes of the packed `struct simtemp_sample` (8 + 4 + 4). -/
def SIZEOF_SAMPLE : Nat := 16

/-! ## Machine arithmetic -/

/-- Reduction of a natural number to an unsigned 32-bit value. -/
def wrap_u32 (n : Nat) : Nat := n % 4294967296

/-- The C statement `x++` on a `__u32`. -/
def u32_inc (x : Nat) : Nat := (x + 1) % 4294967296

/-- The C statement `x--` on a `__u32`: adding 2^32 - 1 modulo 2^32. -/
def u32_dec (x : Nat) : Nat := (4294967295 + x) % 4294967296

/-- Unsigned 32-bit addition `a + b`. -/
def u32_add (a b : Nat) : Nat := (a + b) % 4294967296

/-- Unsigned 32-bit subtraction `a - b`: adding the two's complement of `b` modulo 2^32. -/
def u32_sub (a b : Nat) : Nat := (4294967296 - b % 4294967296 + a) % 4294967296

/-- Conversion of an integer to a signed 32-bit value (two's complement wrap). -/
def to_s32 (n : Int) : Int := (2147483648 + n) % 4294967296 - 2147483648

/-! ## Data model -/

/-- The record `struct simtemp_sample`. -/
structure simtemp_sample where
  timestamp_ns : Nat
  temp_mC : Int
  flags : Nat
  deriving DecidableEq, Repr

/-- The record `struct simtemp_stats`. -/
structure simtemp_stats where
  samples_produced : Nat
  alerts_triggered : Nat
  read_errors : Nat
  last_error : Nat
  deriving DecidableEq, Repr

/-- The engine fields of `struct simtemp_dev` (configuration, ring buffer,
current temperature, statistics, ramp state). The kernel handles (`pdev`,
`cdev`, the mutex, the wait queues, the timer) carry no engine data. -/
structure simtemp_dev where
  sampling_ms : Nat
  threshold_mC : Int
  mode : Nat
  buffer : List simtemp_sample
  read_idx : Nat
  write_idx : Nat
  count : Nat
  current_temp_mC : Int
  threshold_crossed : Bool
  stats : simtemp_stats
  ramp_base : Int
  ramp_direction : Bool
  deriving DecidableEq, Repr

/-- An all-zero sample, as left in the ring by `devm_kzalloc`. -/
def zero_sample : simtemp_sample := { timestamp_ns := 0, temp_mC := 0, flags := 0 }

/-- All-zero statistics, as left by `devm_kzalloc`. -/
def zero_stats : simtemp_stats :=
  { samples_produced := 0, alerts_triggered := 0, read_errors := 0, last_error := 0 }

/-! ## Temperature simulation -/

/-- C function `simulate_temperature_normal`: `40000 + (get_random_u32() % 2000 - 1000)`,
computed in unsigned 32-bit arithmetic and returned as `__s32`. The argument is the
value returned by `get_random_u32()`. -/
def simulate_temperature_normal (rnd : Nat) : Int :=
  to_s32 (u32_add 40000 (u32_sub (rnd % 2000) 1000) : Nat)

/-- C function `simulate_temperature_noisy`: `40000 + (get_random_u32() % 10000 - 5000)`,
computed in unsigned 32-bit arithmetic and returned as `__s32`. -/
def simulate_temperature_noisy (rnd : Nat) : Int :=
  to_s32 (u32_add 40000 (u32_sub (rnd % 10000) 5000) : Nat)

/-- C function `simulate_temperature_ramp`: one step of the triangle wave. Returns
the updated state and the returned temperature `priv->ramp_base`. The `__s32` addition
wraps (the kernel is built with `-fno-strict-overflow`). -/
def simulate_temperature_ramp (priv : simtemp_dev) : simtemp_dev × Int :=
  if priv.ramp_direction then
    let b := to_s32 (priv.ramp_base + 1000)
    if b ≥ 60000 then
      ({ priv with ramp_base := 60000, ramp_direction := false }, 60000)
    else
      ({ priv with ramp_base := b }, b)
  else
    let b := to_s32 (priv.ramp_base - 1000)
    if b ≤ 20000 then
      ({ priv with ramp_base := 20000, ramp_direction := true }, 20000)
    else
      ({ priv with ramp_base := b }, b)

/-- C function `simulate_temperature`: dispatch on `priv->mode`. -/
def simulate_temperature (priv : simtemp_dev) (rnd : Nat) : simtemp_dev × Int :=
  if priv.mode = MODE_NORMAL then (priv, simulate_temperature_normal rnd)
  else if priv.mode = MODE_NOISY then (priv, simulate_temperature_noisy rnd)
  else if priv.mode = MODE_RAMP then simulate_temperature_ramp priv
  else (priv, 40000)

/-! ## The timer callback (engine tick) -/

/-- What one run of `sample_timer_callback` leaves behind: the new device state,
the local `sample` it built, and the local `new_alert` that decides whether
`poll_queue` is woken. -/
structure tick_result where
  dev : simtemp_dev
  sample : simtemp_sample
  new_alert : Bool
  deriving DecidableEq, Repr

/-- C function `sample_timer_callback`. `now` is the value of `ktime_get_ns()`,
`rnd` the value `get_random_u32()` would return. The wake-ups and the re-arming of the
timer after the unlock touch no engine field; `new_alert` records whether `poll_queue`
is woken. -/
def sample_timer_callback (priv : simtemp_dev) (now rnd : Nat) : tick_result :=
  -- Generate new sample
  let g := simulate_temperature priv rnd
  let priv1 := g.1
  let temp := g.2
  -- Check threshold
  let alert : Bool :=
    decide (priv1.current_temp_mC > priv1.threshold_mC ∧ temp ≥ priv1.threshold_mC)
  let flags := if alert then FLAG_NEW_SAMPLE ||| FLAG_THRESHOLD_CROSSED else FLAG_NEW_SAMPLE
  let sample : simtemp_sample := { timestamp_ns := now, temp_mC := temp, flags := flags }
  let priv2 :=
    if alert then
      { priv1 with stats := { priv1.stats with
          alerts_triggered := u32_inc priv1.stats.alerts_triggered } }
    else priv1
  let priv3 := { priv2 with current_temp_mC := temp }
  -- Add to buffer
  let priv4 :=
    if priv3.count < SIMTEMP_MAX_SAMPLES then
      { priv3 with
        buffer := priv3.buffer.set priv3.write_idx sample
        write_idx := u32_inc priv3.write_idx % SIMTEMP_MAX_SAMPLES
        count := u32_inc priv3.count
        stats := { priv3.stats with samples_produced := u32_inc priv3.stats.samples_produced } }
    else
      { priv3 with stats := { priv3.stats with read_errors := u32_inc priv3.stats.read_errors } }
  { dev := priv4, sample := sample, new_alert := alert }

/-! ## File operations -/

/-- Outcome of `simtemp_read`: a sample copied to the caller (the call returns
`sizeof(sample)`), a negative errno, or the caller left asleep on `read_queue`. -/
inductive read_result where
  | data (s : simtemp_sample)
  | error (errno : Int)
  | sleeping
  deriving DecidableEq, Repr

/-- C function `simtemp_read`. `count` is the size of the user buffer,
`nonblock` is `file->f_flags & O_NONBLOCK`, `interrupted` tells whether
`wait_event_interruptible` was cut short by a signal, `copy_ok` whether
`copy_to_user` succeeded. On an empty queue a blocking caller that is not
interrupted stays suspended until a tick enqueues a sample: that is the
outcome `sleeping`, with the state untouched. -/
def simtemp_read (priv : simtemp_dev) (count : Nat) (nonblock interrupted copy_ok : Bool) :
    simtemp_dev × read_result :=
  if count < SIZEOF_SAMPLE then (priv, .error (-EINVAL))
  else if priv.count = 0 then
    if nonblock then (priv, .error (-EAGAIN))
    else if interrupted then (priv, .error (-ERESTARTSYS))
    else (priv, .sleeping)
  else
    -- Get sample from buffer
    let sample := priv.buffer.getD priv.read_idx zero_sample
    let priv1 := { priv with
      read_idx := u32_inc priv.read_idx % SIMTEMP_MAX_SAMPLES
      count := u32_dec priv.count }
    if copy_ok then (priv1, .data sample) else (priv1, .error (-EFAULT))

/-- C function `simtemp_poll`: the state is only inspected; the result is the mask. -/
def simtemp_poll (priv : simtemp_dev) : simtemp_dev × Nat :=
  let mask0 : Nat := 0
  let mask1 := if priv.count > 0 then mask0 ||| (EPOLLIN ||| EPOLLRDNORM) else mask0
  (priv, mask1 ||| EPOLLPRI)

/-- What `simtemp_ioctl` leaves behind: the new state, the return value, and the
statistics copied to the caller by `SIMTEMP_GET_STATS`. -/
structure ioctl_result where
  dev : simtemp_dev
  ret : Int
  out : Option simtemp_stats
  deriving DecidableEq, Repr

/-- C function `simtemp_ioctl`. `from_user` is what `copy_from_user` reads at `arg`
(`none` when it faults, else the 32-bit word found there); `to_user_ok` tells whether
`copy_to_user` succeeds. -/
def simtemp_ioctl (priv : simtemp_dev) (cmd : Nat) (from_user : Option Nat)
    (to_user_ok : Bool) : ioctl_result :=
  if cmd = SIMTEMP_SET_SAMPLING then
    match from_user with
    | none => { dev := priv, ret := -EFAULT, out := none }
    | some sampling_ms =>
      if sampling_ms < 10 ∨ sampling_ms > 10000 then
        { dev := priv, ret := -EINVAL, out := none }
      else
        { dev := { priv with sampling_ms := sampling_ms }, ret := 0, out := none }
  else if cmd = SIMTEMP_SET_THRESHOLD then
    match from_user with
    | none => { dev := priv, ret := -EFAULT, out := none }
    | some word =>
      { dev := { priv with threshold_mC := to_s32 word, threshold_crossed := false },
        ret := 0, out := none }
  else if cmd = SIMTEMP_SET_MODE then
    match from_user with
    | none => { dev := priv, ret := -EFAULT, out := none }
    | some mode =>
      if mode ≥ MODE_MAX then
        { dev := priv, ret := -EINVAL, out := none }
      else if mode = MODE_RAMP then
        { dev := { priv with mode := mode, ramp_base := 25000, ramp_direction := true },
          ret := 0, out := none }
      else
        { dev := { priv with mode := mode }, ret := 0, out := none }
  else if cmd = SIMTEMP_GET_STATS then
    if to_user_ok then { dev := priv, ret := 0, out := some priv.stats }
    else { dev := priv, ret := -EFAULT, out := none }
  else
    { dev := priv, ret := -ENOTTY, out := none }

/-! ## Sysfs store functions -/

/-- C function `sampling_ms_store`. `parsed` is the outcome of `kstrtoul(buf, 10, &val)`:
its nonzero return value, or the parsed `unsigned long`. The call returns `count`
on success. -/
def sampling_ms_store (priv : simtemp_dev) (parsed : Except Int Nat) (count : Nat) :
    simtemp_dev × Int :=
  match parsed with
  | .error ret => (priv, ret)
  | .ok val =>
    if val < 10 ∨ val > 10000 then (priv, -EINVAL)
    else ({ priv with sampling_ms := wrap_u32 val }, (count : Int))

/-- C function `threshold_mC_store`. `parsed` is the outcome of `kstrtol(buf, 10, &val)`;
the `long` is narrowed to `__s32` by the assignment. -/
def threshold_mC_store (priv : simtemp_dev) (parsed : Except Int Int) (count : Nat) :
    simtemp_dev × Int :=
  match parsed with
  | .error ret => (priv, ret)
  | .ok val =>
    ({ priv with threshold_mC := to_s32 val, threshold_crossed := false }, (count : Int))

/-- Kernel helper `sysfs_streq`: equality of two strings up to one trailing newline. -/
def sysfs_streq (s1 s2 : List Char) : Bool :=
  s1 == s2 || s1 == s2 ++ ['\n'] || s1 ++ ['\n'] == s2

/-- C function `mode_store`. -/
def mode_store (priv : simtemp_dev) (buf : String) (count : Nat) : simtemp_dev × Int :=
  if sysfs_streq buf.toList "normal".toList then
    ({ priv with mode := MODE_NORMAL }, (count : Int))
  else if sysfs_streq buf.toList "noisy".toList then
    ({ priv with mode := MODE_NOISY }, (count : Int))
  else if sysfs_streq buf.toList "ramp".toList then
    ({ priv with mode := MODE_RAMP, ramp_base := 25000, ramp_direction := true }, (count : Int))
  else
    (priv, -EINVAL)

/-! ## Probe -/

/-- The two properties of the device-tree node that `simtemp_probe` looks up:
`of_property_read_u32` finds a 32-bit cell or fails and leaves its output untouched. -/
structure device_node where
  sampling_ms : Option Nat
  threshold_mC : Option Nat
  deriving DecidableEq, Repr

/-- C function `simtemp_probe`, on the path where every registration step succeeds:
the zeroed allocation, the defaults, and the device-tree overrides. `np` is
`dev->of_node` (`none` for a null pointer). -/
def simtemp_probe (np : Option device_node) : simtemp_dev :=
  let priv : simtemp_dev :=
    { sampling_ms := 50
      threshold_mC := 41000
      mode := MODE_NORMAL
      buffer := List.replicate SIMTEMP_MAX_SAMPLES zero_sample
      read_idx := 0
      write_idx := 0
      count := 0
      current_temp_mC := 40000
      threshold_crossed := false
      stats := zero_stats
      ramp_base := 0
      ramp_direction := false }
  match np with
  | none => priv
  | some node =>
    let priv1 :=
      match node.sampling_ms with
      | none => priv
      | some v => { priv with sampling_ms := v }
    match node.threshold_mC with
    | none => priv1
    | some v => { priv1 with threshold_mC := to_s32 v }

/-! ## Runs of the engine -/

/-- One callback of the driver, with the values the kernel feeds it. -/
inductive Op where
  | tick (now rnd : Nat)
  | read (count : Nat) (nonblock interrupted copy_ok : Bool)
  | poll
  | ioctl (cmd : Nat) (from_user : Option Nat) (to_user_ok : Bool)
  | sampling_store (parsed : Except Int Nat) (count : Nat)
  | threshold_store (parsed : Except Int Int) (count : Nat)
  | mode_store_op (buf : String) (count : Nat)

/-- State after one callback. -/
def step (priv : simtemp_dev) : Op → simtemp_dev
  | .tick now rnd => (sample_timer_callback priv now rnd).dev
  | .read count nonblock interrupted copy_ok =>
      (simtemp_read priv count nonblock interrupted copy_ok).1
  | .poll => (simtemp_poll priv).1
  | .ioctl cmd from_user to_user_ok => (simtemp_ioctl priv cmd from_user to_user_ok).dev
  | .sampling_store parsed count => (sampling_ms_store priv parsed count).1
  | .threshold_store parsed count => (threshold_mC_store priv parsed count).1
  | .mode_store_op buf count => (mode_store priv buf count).1

/-- State after a sequence of callbacks, oldest first. -/
def run (priv : simtemp_dev) (ops : List Op) : simtemp_dev :=
  ops.foldl step priv

/-- State after a sequence of ticks, each with its clock and random value. -/
def ticks (priv : simtemp_dev) (ins : List (Nat × Nat)) : simtemp_dev :=
  ins.foldl (fun s i => (sample_timer_callback s i.1 i.2).dev) priv

/-- The samples built by a sequence of ticks, in generation order. -/
def generated : simtemp_dev → List (Nat × Nat) → List simtemp_sample
  | _, [] => []
  | s, i :: rest =>
    (sample_timer_callback s i.1 i.2).sample ::
      generated (sample_timer_callback s i.1 i.2).dev rest

/-- The queue content as a list, oldest first: the `count` entries of `buffer`
starting at `read_idx`, indices taken modulo the capacity. -/
def queue_list (priv : simtemp_dev) : List simtemp_sample :=
  (List.range priv.count).map
    (fun i => priv.buffer.getD ((priv.read_idx + i) % SIMTEMP_MAX_SAMPLES) zero_sample)

/-- The queue invariant: counters within the capacity. -/
def queue_inv (priv : simtemp_dev) : Prop :=
  priv.count ≤ SIMTEMP_MAX_SAMPLES ∧ priv.read_idx < SIMTEMP_MAX_SAMPLES ∧
    priv.write_idx < SIMTEMP_MAX_SAMPLES

/-- An engine state in which the alert counter holds the largest `__u32` value:
the default state in Noisy mode with stored temperature 42000. -/
def alert_counter_full : simtemp_dev :=
  { simtemp_probe none with
    mode := MODE_NOISY
    current_temp_mC := 42000
    stats := { zero_stats with alerts_triggered := 4294967295 } }

/-- The spec's alert example: threshold 41000 (default), stored temperature 42000,
Noisy mode; the random value 6500 then generates 41500. -/
def alert_example : simtemp_dev :=
  { simtemp_probe none with mode := MODE_NOISY, current_temp_mC := 42000 }

/-- The alert test of the tick, on the state before the tick. -/
def alert_cond (priv : simtemp_dev) (rnd : Nat) : Prop :=
  priv.current_temp_mC > priv.threshold_mC ∧
    (simulate_temperature priv rnd).2 ≥ priv.threshold_mC

instance (priv : simtemp_dev) (rnd : Nat) : Decidable (alert_cond priv rnd) := by
  unfold alert_cond; infer_instance

/-- The ring invariant: a buffer of `SIMTEMP_MAX_SAMPLES` slots, counters within the
capacity, and the write cursor `count` slots ahead of the read cursor. -/
def ring_inv (priv : simtemp_dev) : Prop :=
  priv.buffer.length = SIMTEMP_MAX_SAMPLES ∧ priv.count ≤ SIMTEMP_MAX_SAMPLES ∧
    priv.read_idx < SIMTEMP_MAX_SAMPLES ∧
    priv.write_idx = (priv.read_idx + priv.count) % SIMTEMP_MAX_SAMPLES

instance (priv : simtemp_dev) : Decidable (ring_inv priv) := by
  unfold ring_inv; infer_instance

/-- The bounded FIFO of the spec, enqueue: append at the tail when fewer than 32
elements are held, drop the new element otherwise. -/
def spec_fifo_enqueue (q : List simtemp_sample) (x : simtemp_sample) : List simtemp_sample :=
  if q.length < 32 then q ++ [x] else q

/-- The bounded FIFO of the spec, dequeue: the oldest element and the rest, or
nothing when the list is empty. -/
def spec_fifo_dequeue (q : List simtemp_sample) : Option (simtemp_sample × List simtemp_sample) :=
  match q with
  | [] => none
  | x :: rest => some (x, rest)

/-- Forty tick inputs (clock value, random value), the spec's `s1..s40` example. -/
def forty_inputs : List (Nat × Nat) :=
  (List.range 40).map (fun i => (1000 * (i + 1), 37 * i))

/-- Two states with the same sample queue: buffer, cursors and count agree. -/
def same_queue (s t : simtemp_dev) : Prop :=
  t.buffer = s.buffer ∧ t.read_idx = s.read_idx ∧ t.write_idx = s.write_idx ∧
    t.count = s.count

instance (s t : simtemp_dev) : Decidable (same_queue s t) := by
  unfold same_queue; infer_instance

/-- A short run for the examples: three ticks, one read, a mode change, one more tick. -/
def sample_ops : List Op :=
  [.tick 100 7, .tick 200 8, .tick 300 9, .read 16 true false true,
   .ioctl SIMTEMP_SET_MODE (some 2) true, .tick 400 10]

/-- The spec's first ramp example: base 59500, rising. -/
def ramp_top_example : simtemp_dev :=
  { simtemp_probe none with mode := MODE_RAMP, ramp_base := 59500, ramp_direction := true }

/-- The spec's second ramp example: base 20500, falling. -/
def ramp_bottom_example : simtemp_dev :=
  { simtemp_probe none with mode := MODE_RAMP, ramp_base := 20500, ramp_direction := false }

/-- The spec's mode-switch example: Ramp mode driven to base 55000, falling. -/
def ramp_mid_example : simtemp_dev :=
  { simtemp_probe none with mode := MODE_RAMP, ramp_base := 55000, ramp_direction := false }

/-- The configuration range of the spec: `sampling_period_ms ∈ [10, 10000]`. -/
def sampling_in_range (priv : simtemp_dev) : Prop :=
  10 ≤ priv.sampling_ms ∧ priv.sampling_ms ≤ 10000

instance (priv : simtemp_dev) : Decidable (sampling_in_range priv) := by
  unfold sampling_in_range; infer_instance

instance (priv : simtemp_dev) : Decidable (queue_inv priv) := by
  unfold queue_inv; infer_instance

/-- A device-tree node whose `sampling-ms` cell is 5 and which has no `threshold-mC`. -/
def dt_fast_node : device_node := { sampling_ms := some 5, threshold_mC := none }

/-- The results of `k` successive non-blocking reads with a large enough user buffer
and a working `copy_to_user`, oldest first. -/
def drain : Nat → simtemp_dev → List read_result
  | 0, _ => []
  | k + 1, s =>
    (simtemp_read s SIZEOF_SAMPLE true false true).2 ::
      drain k (simtemp_read s SIZEOF_SAMPLE true false true).1

/-- The callbacks that do not reconfigure the engine: ticks, reads and polls. -/
def no_reconfig : Op → Bool
  | .tick _ _ => true
  | .read _ _ _ _ => true
  | .poll => true
  | _ => false

/-- The sample built by one callback: the tick's sample, nothing for the others. -/
def op_sample (priv : simtemp_dev) : Op → List simtemp_sample
  | .tick now rnd => [(sample_timer_callback priv now rnd).sample]
  | _ => []

/-- The samples built by the ticks of a run, in generation order. -/
def run_samples : simtemp_dev → List Op → List simtemp_sample
  | _, [] => []
  | s, op :: rest => op_sample s op ++ run_samples (step s op) rest

/-- The invariant of an engine left in Normal mode with a threshold of at least 41000:
well-formed ring, no alert counted, every buffered sample flagged `NEW_SAMPLE` only. -/
def quiet_inv (priv : simtemp_dev) : Prop :=
  ring_inv priv ∧ priv.mode = MODE_NORMAL ∧ 41000 ≤ priv.threshold_mC ∧
    priv.stats.alerts_triggered = 0 ∧ ∀ x ∈ queue_list priv, x.flags = FLAG_NEW_SAMPLE

/-- The default engine with a stored temperature of 42000, above the threshold. -/
def hot_default : simtemp_dev := { simtemp_probe none with current_temp_mC := 42000 }

/-- A run without reconfiguration: ticks, reads (one on the empty queue) and a poll. -/
def quiet_ops : List Op :=
  [.read 16 true false true, .tick 100 1999, .tick 200 0, .poll, .read 16 true false true,
   .tick 300 4294967295, .read 16 false false true, .tick 400 12345]

/-- The default engine after three ticks and no read: three samples are buffered. -/
def three_buffered : simtemp_dev :=
  ticks (simtemp_probe none) [(100, 7), (200, 8), (300, 9)]

/-! ## Frame lemmas for the signal models -/

theorem simulate_temperature_ramp_frame (priv : simtemp_dev) :
    ∃ b d, (simulate_temperature_ramp priv).1 =
      { priv with ramp_base := b, ramp_direction := d } := by
  simp only [simulate_temperature_ramp]
  split_ifs
  · exact ⟨_, _, rfl⟩
  · exact ⟨_, _, rfl⟩
  · exact ⟨_, _, rfl⟩
  · exact ⟨_, _, rfl⟩

theorem simulate_temperature_frame (priv : simtemp_dev) (rnd : Nat) :
    ∃ b d, (simulate_temperature priv rnd).1 =
      { priv with ramp_base := b, ramp_direction := d } := by
  unfold simulate_temperature
  split_ifs
  · exact ⟨_, _, rfl⟩
  · exact ⟨_, _, rfl⟩
  · exact simulate_temperature_ramp_frame priv
  · exact ⟨_, _, rfl⟩

/-! ## The tick, field by field -/

theorem tick_sample (priv : simtemp_dev) (now rnd : Nat) :
    (sample_timer_callback priv now rnd).sample =
      { timestamp_ns := now, temp_mC := (simulate_temperature priv rnd).2,
        flags := if alert_cond priv rnd then 3 else 1 } := by
  obtain ⟨b, d, h⟩ := simulate_temperature_frame priv rnd
  have h3 : FLAG_NEW_SAMPLE ||| FLAG_THRESHOLD_CROSSED = 3 := by decide
  have h1 : FLAG_NEW_SAMPLE = 1 := by decide
  by_cases hc : alert_cond priv rnd
  · have hc2 := hc
    unfold alert_cond at hc2
    simp [sample_timer_callback, h, hc, hc2, h3]
  · have hc2 := hc
    unfold alert_cond at hc2
    simp [sample_timer_callback, h, hc, hc2, h1]

theorem tick_new_alert (priv : simtemp_dev) (now rnd : Nat) :
    (sample_timer_callback priv now rnd).new_alert = decide (alert_cond priv rnd) := by
  obtain ⟨b, d, h⟩ := simulate_temperature_frame priv rnd
  unfold sample_timer_callback alert_cond
  simp only [h]

theorem tick_config (priv : simtemp_dev) (now rnd : Nat) :
    (sample_timer_callback priv now rnd).dev.sampling_ms = priv.sampling_ms ∧
    (sample_timer_callback priv now rnd).dev.threshold_mC = priv.threshold_mC ∧
    (sample_timer_callback priv now rnd).dev.mode = priv.mode ∧
    (sample_timer_callback priv now rnd).dev.read_idx = priv.read_idx ∧
    (sample_timer_callback priv now rnd).dev.current_temp_mC
      = (simulate_temperature priv rnd).2 := by
  obtain ⟨b, d, h⟩ := simulate_temperature_frame priv rnd
  by_cases hroom : priv.count < SIMTEMP_MAX_SAMPLES <;> by_cases hc : alert_cond priv rnd <;>
    · have hc2 := hc
      unfold alert_cond at hc2
      simp [sample_timer_callback, h, hc2, hroom]

theorem tick_alerts (priv : simtemp_dev) (now rnd : Nat) :
    (sample_timer_callback priv now rnd).dev.stats.alerts_triggered =
      if alert_cond priv rnd then u32_inc priv.stats.alerts_triggered
      else priv.stats.alerts_triggered := by
  obtain ⟨b, d, h⟩ := simulate_temperature_frame priv rnd
  by_cases hroom : priv.count < SIMTEMP_MAX_SAMPLES <;> by_cases hc : alert_cond priv rnd <;>
    · have hc2 := hc
      unfold alert_cond at hc2
      simp [sample_timer_callback, h, hc, hc2, hroom]

theorem tick_enqueue (priv : simtemp_dev) (now rnd : Nat)
    (hroom : priv.count < SIMTEMP_MAX_SAMPLES) :
    (sample_timer_callback priv now rnd).dev.buffer
      = priv.buffer.set priv.write_idx (sample_timer_callback priv now rnd).sample ∧
    (sample_timer_callback priv now rnd).dev.write_idx
      = u32_inc priv.write_idx % SIMTEMP_MAX_SAMPLES ∧
    (sample_timer_callback priv now rnd).dev.count = u32_inc priv.count ∧
    (sample_timer_callback priv now rnd).dev.stats.samples_produced
      = u32_inc priv.stats.samples_produced ∧
    (sample_timer_callback priv now rnd).dev.stats.read_errors = priv.stats.read_errors := by
  obtain ⟨b, d, h⟩ := simulate_temperature_frame priv rnd
  by_cases hc : alert_cond priv rnd <;>
    · have hc2 := hc
      unfold alert_cond at hc2
      simp [sample_timer_callback, h, hc2, hroom]

theorem tick_drop (priv : simtemp_dev) (now rnd : Nat)
    (hfull : ¬ priv.count < SIMTEMP_MAX_SAMPLES) :
    (sample_timer_callback priv now rnd).dev.buffer = priv.buffer ∧
    (sample_timer_callback priv now rnd).dev.write_idx = priv.write_idx ∧
    (sample_timer_callback priv now rnd).dev.count = priv.count ∧
    (sample_timer_callback priv now rnd).dev.stats.samples_produced
      = priv.stats.samples_produced ∧
    (sample_timer_callback priv now rnd).dev.stats.read_errors
      = u32_inc priv.stats.read_errors := by
  obtain ⟨b, d, h⟩ := simulate_temperature_frame priv rnd
  by_cases hc : alert_cond priv rnd <;>
    · have hc2 := hc
      unfold alert_cond at hc2
      simp [sample_timer_callback, h, hc2, hfull]

/-! ## C1: the alert rule of the tick -/

/-- C1 (counterexample): with the alert counter at 4294967295, threshold 41000, stored
temperature 42000 and a new temperature 41500, the tick raises the alert (flags 0x3)
but the counter wraps to 0 instead of growing by 1. -/
theorem tick_alert_counter_wraps :
    alert_counter_full.current_temp_mC > alert_counter_full.threshold_mC ∧
    (simulate_temperature alert_counter_full 6500).2 = 41500 ∧
    (sample_timer_callback alert_counter_full 0 6500).sample.flags = 3 ∧
    (sample_timer_callback alert_counter_full 0 6500).dev.stats.alerts_triggered = 0 ∧
    (sample_timer_callback alert_counter_full 0 6500).dev.stats.alerts_triggered ≠
      alert_counter_full.stats.alerts_triggered + 1 := by
  decide

/-- C1 (amended): for every engine state and every generated temperature `t`, the stored
temperature becomes `t`; the tick raises an alert (sample flags 0x3, `new_alert`) exactly
when the temperature stored before the tick is `> threshold_mC` and `t ≥ threshold_mC`;
in that case `alerts_triggered` is incremented modulo 2^32 (so it grows by exactly 1
unless it was 4294967295); otherwise the flags are exactly 0x1 and `alerts_triggered`
is unchanged. -/
theorem tick_alert_rule (priv : simtemp_dev) (now rnd : Nat) :
    (sample_timer_callback priv now rnd).dev.current_temp_mC
        = (simulate_temperature priv rnd).2 ∧
    (sample_timer_callback priv now rnd).sample.temp_mC = (simulate_temperature priv rnd).2 ∧
    ((sample_timer_callback priv now rnd).sample.flags = 3 ↔
      (priv.current_temp_mC > priv.threshold_mC ∧
        (simulate_temperature priv rnd).2 ≥ priv.threshold_mC)) ∧
    ((priv.current_temp_mC > priv.threshold_mC ∧
        (simulate_temperature priv rnd).2 ≥ priv.threshold_mC) →
      (sample_timer_callback priv now rnd).sample.flags = 3 ∧
      (sample_timer_callback priv now rnd).new_alert = true ∧
      (sample_timer_callback priv now rnd).dev.stats.alerts_triggered
        = (priv.stats.alerts_triggered + 1) % 4294967296 ∧
      (priv.stats.alerts_triggered < 4294967295 →
        (sample_timer_callback priv now rnd).dev.stats.alerts_triggered
          = priv.stats.alerts_triggered + 1)) ∧
    (¬ (priv.current_temp_mC > priv.threshold_mC ∧
        (simulate_temperature priv rnd).2 ≥ priv.threshold_mC) →
      (sample_timer_callback priv now rnd).sample.flags = 1 ∧
      (sample_timer_callback priv now rnd).new_alert = false ∧
      (sample_timer_callback priv now rnd).dev.stats.alerts_triggered
        = priv.stats.alerts_triggered) := by
  have hs := tick_sample priv now rnd
  have hn := tick_new_alert priv now rnd
  have ha := tick_alerts priv now rnd
  have hcur := (tick_config priv now rnd).2.2.2.2
  rw [hs, hn, ha, hcur]
  change _ ∧ _ ∧ (_ ↔ alert_cond priv rnd) ∧ (alert_cond priv rnd → _) ∧
    (¬ alert_cond priv rnd → _)
  by_cases hc : alert_cond priv rnd
  · simp only [hc, if_true, decide_True, true_implies, not_true_eq_false, false_implies,
      and_true, true_and, iff_true, u32_inc]
    intro hlt
    exact Nat.mod_eq_of_lt (by omega)
  · simp [hc]

/-- C1 (witness): threshold 41000, stored temperature 42000, new temperature 41500:
the alert fires, the flags are 0x3 and the counter goes from 0 to 1. -/
theorem tick_alert_rule_witness :
    (simulate_temperature alert_example 6500).2 = 41500 ∧
    (sample_timer_callback alert_example 0 6500).sample.flags = 3 ∧
    (sample_timer_callback alert_example 0 6500).new_alert = true ∧
    (sample_timer_callback alert_example 0 6500).dev.stats.alerts_triggered = 1 :=
  ⟨by decide,
   ((tick_alert_rule alert_example 0 6500).2.2.2.1 (by decide)).1,
   ((tick_alert_rule alert_example 0 6500).2.2.2.1 (by decide)).2.1,
   ((tick_alert_rule alert_example 0 6500).2.2.2.1 (by decide)).2.2.2 (by decide)⟩

/-! ## The ring buffer as a list -/

theorem queue_list_length (s : simtemp_dev) : (queue_list s).length = s.count := by
  simp [queue_list]

theorem probe_queue (np : Option device_node) :
    (simtemp_probe np).buffer = List.replicate SIMTEMP_MAX_SAMPLES zero_sample ∧
    (simtemp_probe np).read_idx = 0 ∧ (simtemp_probe np).write_idx = 0 ∧
    (simtemp_probe np).count = 0 ∧ (simtemp_probe np).stats = zero_stats := by
  unfold simtemp_probe
  rcases np with _ | ⟨_ | a, _ | b⟩ <;> simp

theorem probe_ring_inv (np : Option device_node) : ring_inv (simtemp_probe np) := by
  obtain ⟨hb, hr, hw, hc, -⟩ := probe_queue np
  simp [ring_inv, hb, hr, hw, hc, SIMTEMP_MAX_SAMPLES]

theorem tick_ring_inv (s : simtemp_dev) (now rnd : Nat) (h : ring_inv s) :
    ring_inv (sample_timer_callback s now rnd).dev := by
  obtain ⟨hlen, hc, hr, hw⟩ := h
  have hri := (tick_config s now rnd).2.2.2.1
  by_cases hroom : s.count < SIMTEMP_MAX_SAMPLES
  · obtain ⟨hb, hwi, hcnt, -, -⟩ := tick_enqueue s now rnd hroom
    unfold ring_inv
    rw [hb, hwi, hcnt, hri, List.length_set]
    simp only [u32_inc, SIMTEMP_MAX_SAMPLES] at hroom hlen hc hr hw ⊢
    exact ⟨hlen, by omega, by omega, by omega⟩
  · obtain ⟨hb, hwi, hcnt, -, -⟩ := tick_drop s now rnd hroom
    unfold ring_inv
    rw [hb, hwi, hcnt, hri]
    exact ⟨hlen, hc, hr, hw⟩

theorem tick_queue_list (s : simtemp_dev) (now rnd : Nat) (h : ring_inv s) :
    queue_list (sample_timer_callback s now rnd).dev
      = spec_fifo_enqueue (queue_list s) (sample_timer_callback s now rnd).sample := by
  obtain ⟨hlen, hc, hr, hw⟩ := h
  have hri := (tick_config s now rnd).2.2.2.1
  by_cases hroom : s.count < SIMTEMP_MAX_SAMPLES
  · obtain ⟨hb, hwi, hcnt, -, -⟩ := tick_enqueue s now rnd hroom
    have hinc : u32_inc s.count = s.count + 1 := by
      simp only [u32_inc, SIMTEMP_MAX_SAMPLES] at *
      omega
    have hroom2 : s.count < 32 := hroom
    simp only [queue_list, spec_fifo_enqueue, List.length_map, List.length_range, hroom2, if_true,
      hb, hri, hcnt, hinc]
    rw [List.range_succ, List.map_append]
    congr 1
    · apply List.map_congr_left
      intro i hi
      rw [List.mem_range] at hi
      simp only [List.getD_eq_getElem?_getD]
      rw [List.getElem?_set_ne]
      simp only [SIMTEMP_MAX_SAMPLES] at *
      omega
    · simp only [List.map_cons, List.map_nil, List.getD_eq_getElem?_getD]
      rw [← hw, List.getElem?_set_self (by simp only [SIMTEMP_MAX_SAMPLES] at *; omega)]
      rfl
  · obtain ⟨hb, hwi, hcnt, -, -⟩ := tick_drop s now rnd hroom
    have hfull : ¬ s.count < 32 := hroom
    simp only [queue_list, spec_fifo_enqueue, List.length_map, List.length_range, hfull, if_false,
      hb, hri, hcnt]

theorem read_nonempty (s : simtemp_dev) (count : Nat) (nonblock interrupted copy_ok : Bool)
    (hsize : SIZEOF_SAMPLE ≤ count) (hne : s.count ≠ 0) :
    simtemp_read s count nonblock interrupted copy_ok =
      ({ s with read_idx := u32_inc s.read_idx % SIMTEMP_MAX_SAMPLES, count := u32_dec s.count },
        if copy_ok then .data (s.buffer.getD s.read_idx zero_sample) else .error (-EFAULT)) := by
  have h1 : ¬ count < SIZEOF_SAMPLE := by omega
  unfold simtemp_read
  simp only [h1, hne, if_false]
  split_ifs <;> rfl

theorem read_empty (s : simtemp_dev) (count : Nat) (nonblock interrupted copy_ok : Bool)
    (hsize : SIZEOF_SAMPLE ≤ count) (he : s.count = 0) :
    simtemp_read s count nonblock interrupted copy_ok =
      (s, if nonblock then .error (-EAGAIN)
          else if interrupted then .error (-ERESTARTSYS) else .sleeping) := by
  have h1 : ¬ count < SIZEOF_SAMPLE := by omega
  unfold simtemp_read
  simp only [h1, he, if_false, if_true]
  split_ifs <;> rfl

theorem read_short (s : simtemp_dev) (count : Nat) (nonblock interrupted copy_ok : Bool)
    (hsize : count < SIZEOF_SAMPLE) :
    simtemp_read s count nonblock interrupted copy_ok = (s, .error (-EINVAL)) := by
  unfold simtemp_read
  simp only [hsize, if_true]

theorem read_ring_inv (s : simtemp_dev) (count : Nat) (nonblock interrupted copy_ok : Bool)
    (h : ring_inv s) : ring_inv (simtemp_read s count nonblock interrupted copy_ok).1 := by
  by_cases hsize : count < SIZEOF_SAMPLE
  · rw [read_short s count nonblock interrupted copy_ok hsize]; exact h
  · by_cases he : s.count = 0
    · rw [read_empty s count nonblock interrupted copy_ok (by omega) he]; exact h
    · rw [read_nonempty s count nonblock interrupted copy_ok (by omega) he]
      obtain ⟨hlen, hc, hr, hw⟩ := h
      simp only [ring_inv, u32_inc, u32_dec, SIMTEMP_MAX_SAMPLES] at hlen hc hr hw ⊢
      exact ⟨hlen, by omega, by omega, by omega⟩

theorem read_queue_list (s : simtemp_dev) (count : Nat) (nonblock interrupted copy_ok : Bool)
    (hsize : SIZEOF_SAMPLE ≤ count) (h : ring_inv s) (hne : s.count ≠ 0) :
    queue_list s = s.buffer.getD s.read_idx zero_sample ::
      queue_list (simtemp_read s count nonblock interrupted copy_ok).1 := by
  rw [read_nonempty s count nonblock interrupted copy_ok hsize hne]
  obtain ⟨hlen, hc, hr, hw⟩ := h
  obtain ⟨k, hk⟩ : ∃ k, s.count = k + 1 := ⟨s.count - 1, by omega⟩
  have hdec : u32_dec s.count = k := by
    simp only [u32_dec, SIMTEMP_MAX_SAMPLES] at hc ⊢
    omega
  unfold queue_list
  simp only [hdec]
  rw [hk, List.range_succ_eq_map, List.map_cons, List.map_map]
  simp only [SIMTEMP_MAX_SAMPLES] at hr ⊢
  refine congrArg₂ List.cons ?_ ?_
  · rw [Nat.add_zero, Nat.mod_eq_of_lt hr]
  · apply List.map_congr_left
    intro i _
    simp only [Function.comp, u32_inc]
    have hidx : (s.read_idx + (i + 1)) % 32
        = ((s.read_idx + 1) % 4294967296 % 32 + i) % 32 := by omega
    rw [Nat.succ_eq_add_one, hidx]

/-! ## Runs of ticks -/

theorem ticks_cons (s : simtemp_dev) (i : Nat × Nat) (rest : List (Nat × Nat)) :
    ticks s (i :: rest) = ticks (sample_timer_callback s i.1 i.2).dev rest := rfl

theorem generated_length (ins : List (Nat × Nat)) :
    ∀ s : simtemp_dev, (generated s ins).length = ins.length := by
  induction ins with
  | nil => intro s; rfl
  | cons i rest ih => intro s; simp only [generated, List.length_cons, ih]

theorem ticks_read_idx (ins : List (Nat × Nat)) :
    ∀ s : simtemp_dev, (ticks s ins).read_idx = s.read_idx := by
  induction ins with
  | nil => intro s; rfl
  | cons i rest ih =>
    intro s
    rw [ticks_cons, ih, (tick_config s i.1 i.2).2.2.2.1]

theorem ticks_queue_list (ins : List (Nat × Nat)) :
    ∀ s : simtemp_dev, ring_inv s →
      queue_list (ticks s ins) = (queue_list s ++ generated s ins).take 32 := by
  induction ins with
  | nil =>
    intro s h
    have hlen := queue_list_length s
    have hc : s.count ≤ 32 := h.2.1
    simp only [ticks, List.foldl_nil, generated, List.append_nil]
    rw [List.take_of_length_le (by omega)]
  | cons i rest ih =>
    intro s h
    rw [ticks_cons, ih _ (tick_ring_inv s i.1 i.2 h), tick_queue_list s i.1 i.2 h]
    have hlen := queue_list_length s
    have hc : s.count ≤ 32 := h.2.1
    unfold spec_fifo_enqueue
    by_cases hroom : (queue_list s).length < 32
    · simp only [hroom, if_true, generated, List.append_assoc, List.singleton_append]
    · simp only [hroom, if_false, generated]
      have h32 : (queue_list s).length = 32 := by omega
      rw [List.take_append_of_le_length (by omega), List.take_append_of_le_length (by omega)]

theorem ticks_counters (ins : List (Nat × Nat)) :
    ∀ s : simtemp_dev, s.count ≤ 32 →
      s.stats.samples_produced < 4294967296 → s.stats.read_errors < 4294967296 →
      (ticks s ins).count = min (s.count + ins.length) 32 ∧
      (ticks s ins).stats.samples_produced =
        (s.stats.samples_produced + (min (s.count + ins.length) 32 - s.count)) % 4294967296 ∧
      (ticks s ins).stats.read_errors =
        (s.stats.read_errors + (s.count + ins.length - min (s.count + ins.length) 32))
          % 4294967296 := by
  induction ins with
  | nil =>
    intro s hc hsp hre
    simp only [ticks, List.foldl_nil, List.length_nil]
    omega
  | cons i rest ih =>
    intro s hc hsp hre
    rw [ticks_cons]
    by_cases hroom : s.count < SIMTEMP_MAX_SAMPLES
    · obtain ⟨-, -, hcnt, hprod, herr⟩ := tick_enqueue s i.1 i.2 hroom
      simp only [u32_inc, SIMTEMP_MAX_SAMPLES] at hroom hcnt hprod herr
      obtain ⟨h1, h2, h3⟩ := ih (sample_timer_callback s i.1 i.2).dev
        (by omega) (by omega) (by omega)
      rw [h1, h2, h3, hcnt, hprod, herr]
      simp only [List.length_cons]
      omega
    · obtain ⟨-, -, hcnt, hprod, herr⟩ := tick_drop s i.1 i.2 hroom
      simp only [u32_inc, SIMTEMP_MAX_SAMPLES] at hroom hcnt hprod herr
      obtain ⟨h1, h2, h3⟩ := ih (sample_timer_callback s i.1 i.2).dev
        (by omega) (by omega) (by omega)
      rw [h1, h2, h3, hcnt, hprod, herr]
      simp only [List.length_cons]
      omega

/-! ## C2: n ticks on a fresh engine -/

/-- C2 (counterexample): after 4294967328 = 2^32 + 32 ticks on a fresh engine with no
reads, the overflow counter `stats.read_errors` is 0 (it has wrapped), not
n - min(n, 32) = 4294967296. -/
theorem fresh_ticks_overflow_counter_wraps :
    (ticks (simtemp_probe none) (List.replicate 4294967328 (0, 0))).stats.read_errors = 0 ∧
    (ticks (simtemp_probe none) (List.replicate 4294967328 (0, 0))).stats.read_errors ≠
      (List.replicate 4294967328 ((0 : Nat), (0 : Nat))).length
        - min (List.replicate 4294967328 ((0 : Nat), (0 : Nat))).length 32 := by
  obtain ⟨-, -, -, hc, hst⟩ := probe_queue none
  have h := (ticks_counters (List.replicate 4294967328 (0, 0)) (simtemp_probe none)
    (by rw [hc]; omega) (by rw [hst]; decide) (by rw [hst]; decide)).2.2
  rw [hc, hst, List.length_replicate] at h
  rw [List.length_replicate, h]
  simp only [zero_stats]
  omega

/-- C2 (amended): from a freshly created engine, after n ticks and no reads, the queue
holds exactly the first min(n, 32) generated samples in generation order, the read cursor
has not moved, count = min(n, 32), samples_produced = min(n, 32), and the overflow counter
`stats.read_errors` equals (n - min(n, 32)) modulo 2^32 - which is n - min(n, 32) itself
for every n below 2^32 + 32. -/
theorem fresh_ticks_queue (np : Option device_node) (ins : List (Nat × Nat)) :
    queue_list (ticks (simtemp_probe np) ins)
      = (generated (simtemp_probe np) ins).take (min ins.length 32) ∧
    (ticks (simtemp_probe np) ins).read_idx = 0 ∧
    (ticks (simtemp_probe np) ins).count = min ins.length 32 ∧
    (ticks (simtemp_probe np) ins).stats.samples_produced = min ins.length 32 ∧
    (ticks (simtemp_probe np) ins).stats.read_errors
      = (ins.length - min ins.length 32) % 4294967296 ∧
    (ins.length < 4294967328 →
      (ticks (simtemp_probe np) ins).stats.read_errors = ins.length - min ins.length 32) := by
  obtain ⟨hb, hr, hw, hc, hst⟩ := probe_queue np
  have hq := ticks_queue_list ins (simtemp_probe np) (probe_ring_inv np)
  have hq0 : queue_list (simtemp_probe np) = [] := by
    simp [queue_list, hc]
  have hcnt := ticks_counters ins (simtemp_probe np)
    (by rw [hc]; omega) (by rw [hst]; decide) (by rw [hst]; decide)
  rw [hc, hst] at hcnt
  simp only [zero_stats, Nat.zero_add, Nat.sub_zero] at hcnt
  obtain ⟨h1, h2, h3⟩ := hcnt
  have hgen := generated_length ins (simtemp_probe np)
  refine ⟨?_, ?_, h1, ?_, h3, ?_⟩
  · rw [hq, hq0, List.nil_append]
    by_cases hn : ins.length ≤ 32
    · rw [Nat.min_eq_left hn, List.take_of_length_le (by omega),
        List.take_of_length_le (by omega)]
    · rw [Nat.min_eq_right (by omega)]
  · rw [ticks_read_idx, hr]
  · rw [h2]; omega
  · intro hlt
    rw [h3]; omega

/-- C2 (witness): forty ticks on a fresh engine: the first 32 generated samples are
retained, count and samples_produced are 32, the overflow counter is 8. -/
theorem fresh_ticks_queue_witness :
    queue_list (ticks (simtemp_probe none) forty_inputs)
      = (generated (simtemp_probe none) forty_inputs).take 32 ∧
    (ticks (simtemp_probe none) forty_inputs).count = 32 ∧
    (ticks (simtemp_probe none) forty_inputs).stats.samples_produced = 32 ∧
    (ticks (simtemp_probe none) forty_inputs).stats.read_errors = 8 :=
  ⟨(fresh_ticks_queue none forty_inputs).1,
   (fresh_ticks_queue none forty_inputs).2.2.1,
   (fresh_ticks_queue none forty_inputs).2.2.2.1,
   (fresh_ticks_queue none forty_inputs).2.2.2.2.2 (by decide)⟩

/-! ## The control plane leaves the queue alone -/

theorem poll_state (s : simtemp_dev) : (simtemp_poll s).1 = s := rfl

theorem ioctl_same_queue (s : simtemp_dev) (cmd : Nat) (from_user : Option Nat)
    (to_user_ok : Bool) : same_queue s (simtemp_ioctl s cmd from_user to_user_ok).dev := by
  unfold simtemp_ioctl same_queue
  by_cases h1 : cmd = SIMTEMP_SET_SAMPLING
  · rw [if_pos h1]
    rcases from_user with _ | v
    · simp
    · by_cases hv : v < 10 ∨ v > 10000 <;> simp [hv]
  · rw [if_neg h1]
    by_cases h2 : cmd = SIMTEMP_SET_THRESHOLD
    · rw [if_pos h2]
      rcases from_user with _ | v <;> simp
    · rw [if_neg h2]
      by_cases h3 : cmd = SIMTEMP_SET_MODE
      · rw [if_pos h3]
        rcases from_user with _ | v
        · simp
        · by_cases hv : v ≥ MODE_MAX
          · simp [hv]
          · by_cases hr : v = MODE_RAMP
            · subst hr
              simp [show ¬ (MODE_MAX ≤ MODE_RAMP) by decide]
            · simp [hv, hr]
      · rw [if_neg h3]
        by_cases h4 : cmd = SIMTEMP_GET_STATS
        · rw [if_pos h4]
          cases to_user_ok <;> simp
        · rw [if_neg h4]
          simp

theorem sampling_ms_store_same_queue (s : simtemp_dev) (parsed : Except Int Nat) (count : Nat) :
    same_queue s (sampling_ms_store s parsed count).1 := by
  unfold sampling_ms_store same_queue
  rcases parsed with e | v
  · simp
  · by_cases hv : v < 10 ∨ v > 10000 <;> simp [hv]

theorem threshold_mC_store_same_queue (s : simtemp_dev) (parsed : Except Int Int)
    (count : Nat) : same_queue s (threshold_mC_store s parsed count).1 := by
  unfold threshold_mC_store same_queue
  rcases parsed with e | v <;> simp

theorem mode_store_same_queue (s : simtemp_dev) (buf : String) (count : Nat) :
    same_queue s (mode_store s buf count).1 := by
  unfold mode_store same_queue
  split_ifs <;> simp

theorem same_queue_ring_inv (s t : simtemp_dev) (hq : same_queue s t) (h : ring_inv s) :
    ring_inv t := by
  obtain ⟨hb, hr, hw, hc⟩ := hq
  unfold ring_inv
  rw [hb, hr, hw, hc]
  exact h

theorem step_ring_inv (s : simtemp_dev) (op : Op) (h : ring_inv s) : ring_inv (step s op) := by
  cases op with
  | tick now rnd => exact tick_ring_inv s now rnd h
  | read count nonblock interrupted copy_ok =>
    exact read_ring_inv s count nonblock interrupted copy_ok h
  | poll => exact h
  | ioctl cmd from_user to_user_ok =>
    exact same_queue_ring_inv _ _ (ioctl_same_queue s cmd from_user to_user_ok) h
  | sampling_store parsed count =>
    exact same_queue_ring_inv _ _ (sampling_ms_store_same_queue s parsed count) h
  | threshold_store parsed count =>
    exact same_queue_ring_inv _ _ (threshold_mC_store_same_queue s parsed count) h
  | mode_store_op buf count =>
    exact same_queue_ring_inv _ _ (mode_store_same_queue s buf count) h

theorem run_ring_inv (ops : List Op) : ∀ s : simtemp_dev, ring_inv s → ring_inv (run s ops) := by
  induction ops with
  | nil => intro s h; exact h
  | cons op rest ih => intro s h; exact ih (step s op) (step_ring_inv s op h)

theorem drain_queue_list (k : Nat) :
    ∀ s : simtemp_dev, ring_inv s → k ≤ s.count →
      drain k s = ((queue_list s).take k).map read_result.data := by
  induction k with
  | zero => intro s _ _; simp [drain]
  | succ k ih =>
    intro s hinv hk
    have hne : s.count ≠ 0 := by omega
    have hsz : SIZEOF_SAMPLE ≤ SIZEOF_SAMPLE := Nat.le_refl _
    have hq := read_queue_list s SIZEOF_SAMPLE true false true hsz hinv hne
    have hinv2 := read_ring_inv s SIZEOF_SAMPLE true false true hinv
    have hlen := queue_list_length s
    have hlen2 := queue_list_length (simtemp_read s SIZEOF_SAMPLE true false true).1
    have hk2 : k ≤ (simtemp_read s SIZEOF_SAMPLE true false true).1.count := by
      rw [hq, List.length_cons] at hlen
      omega
    have hres : (simtemp_read s SIZEOF_SAMPLE true false true).2
        = .data (s.buffer.getD s.read_idx zero_sample) := by
      rw [read_nonempty s SIZEOF_SAMPLE true false true hsz hne]
      rfl
    unfold drain
    rw [ih _ hinv2 hk2, hres]
    conv_rhs => rw [hq]
    rfl

/-! ## C3: the ring buffer refines a bounded FIFO -/

/-- C3 (counterexample): three reads the claim's wording covers and the code answers
otherwise. On the empty queue of the default engine a non-blocking read with an 8-byte
buffer returns `-EINVAL`, not `-EAGAIN`. With three samples buffered, a read with an
8-byte buffer returns `-EINVAL` and removes nothing; a read with a 16-byte buffer whose
`copy_to_user` fails returns `-EFAULT`, not the head, although the head is removed. -/
theorem read_outcomes_outside_fifo :
    (queue_list (simtemp_probe none) = [] ∧
      (simtemp_read (simtemp_probe none) 8 true false true).2 = .error (-EINVAL) ∧
      (simtemp_read (simtemp_probe none) 8 true false true).2 ≠ .error (-EAGAIN)) ∧
    ((queue_list three_buffered).length = 3 ∧
      (simtemp_read three_buffered 8 true false true).2 = .error (-EINVAL) ∧
      queue_list (simtemp_read three_buffered 8 true false true).1
        = queue_list three_buffered) ∧
    ((simtemp_read three_buffered 16 true false false).2 = .error (-EFAULT) ∧
      (∀ x ∈ (queue_list three_buffered).head?,
        (simtemp_read three_buffered 16 true false false).2 ≠ .data x) ∧
      queue_list (simtemp_read three_buffered 16 true false false).1
        = (queue_list three_buffered).tail) := by
  decide

/-- C3 (amended): in every state `s` reachable from a freshly probed engine by any sequence
of callbacks (ticks, reads, polls, control-plane calls), with the abstract queue
`queue_list s` (the `count` entries from `read_idx`, modulo 32): (a) a tick turns the
abstract queue into `spec_fifo_enqueue` of it with the sample it built (appended at the
tail below 32 elements, dropped at 32); a read with a buffer shorter than `sizeof(sample)`
returns `-EINVAL` and leaves the whole state unchanged; with a buffer of at least
`sizeof(sample)` bytes, (b) a non-blocking read on an empty queue returns `-EAGAIN` and
leaves the whole state unchanged, and (c) a read on a non-empty queue removes exactly the
head and hands it to the caller when `copy_to_user` succeeds (it returns `-EFAULT` when the
copy fails). Hence `count` successive successful reads return the buffered samples in the
order they were enqueued. -/
theorem ring_refines_fifo (np : Option device_node) (ops : List Op) (now rnd count : Nat)
    (nonblock interrupted copy_ok : Bool) :
    queue_list (sample_timer_callback (run (simtemp_probe np) ops) now rnd).dev
      = spec_fifo_enqueue (queue_list (run (simtemp_probe np) ops))
          (sample_timer_callback (run (simtemp_probe np) ops) now rnd).sample ∧
    (count < SIZEOF_SAMPLE →
      simtemp_read (run (simtemp_probe np) ops) count nonblock interrupted copy_ok
        = (run (simtemp_probe np) ops, .error (-EINVAL))) ∧
    (SIZEOF_SAMPLE ≤ count →
      spec_fifo_dequeue (queue_list (run (simtemp_probe np) ops)) = none →
      simtemp_read (run (simtemp_probe np) ops) count true interrupted copy_ok
        = (run (simtemp_probe np) ops, .error (-EAGAIN))) ∧
    (SIZEOF_SAMPLE ≤ count →
      ∀ x rest, spec_fifo_dequeue (queue_list (run (simtemp_probe np) ops)) = some (x, rest) →
        queue_list (simtemp_read (run (simtemp_probe np) ops) count nonblock interrupted
          copy_ok).1 = rest ∧
        (simtemp_read (run (simtemp_probe np) ops) count nonblock interrupted copy_ok).2
          = if copy_ok then .data x else .error (-EFAULT)) ∧
    drain (run (simtemp_probe np) ops).count (run (simtemp_probe np) ops)
      = (queue_list (run (simtemp_probe np) ops)).map read_result.data := by
  have hinv := run_ring_inv ops (simtemp_probe np) (probe_ring_inv np)
  generalize run (simtemp_probe np) ops = s at hinv
  refine ⟨tick_queue_list s now rnd hinv,
    read_short s count nonblock interrupted copy_ok, ?_, ?_, ?_⟩
  rotate_left 2
  · rw [drain_queue_list s.count s hinv (Nat.le_refl _),
      List.take_of_length_le (by rw [queue_list_length])]
  · intro hsize hnone
    have hlen := queue_list_length s
    have he : s.count = 0 := by
      cases hq : queue_list s with
      | nil => rw [hq] at hlen; exact hlen.symm
      | cons a l => rw [hq] at hnone; simp [spec_fifo_dequeue] at hnone
    rw [read_empty s count true interrupted copy_ok hsize he]
    rfl
  · intro hsize x rest hsome
    have hlen := queue_list_length s
    have hne : s.count ≠ 0 := by
      intro h0
      rw [h0] at hlen
      rw [List.length_eq_zero.mp hlen] at hsome
      simp [spec_fifo_dequeue] at hsome
    have hq := read_queue_list s count nonblock interrupted copy_ok hsize hinv hne
    rw [hq] at hsome
    simp only [spec_fifo_dequeue, Option.some.injEq, Prod.mk.injEq] at hsome
    obtain ⟨hx, hrest⟩ := hsome
    refine ⟨hrest, ?_⟩
    rw [read_nonempty s count nonblock interrupted copy_ok hsize hne, hx]

/-- C3 (witness): after the run `sample_ops` on a default engine, a further tick appends
its sample at the tail of the abstract queue; a read with a 16-byte buffer and a working
copy returns the head and leaves the tail; a read with an 8-byte buffer returns `-EINVAL`
and changes nothing; draining the queue returns its samples in order. -/
theorem ring_refines_fifo_witness :
    queue_list (sample_timer_callback (run (simtemp_probe none) sample_ops) 500 11).dev
      = spec_fifo_enqueue (queue_list (run (simtemp_probe none) sample_ops))
          (sample_timer_callback (run (simtemp_probe none) sample_ops) 500 11).sample ∧
    (∀ x rest, spec_fifo_dequeue (queue_list (run (simtemp_probe none) sample_ops))
        = some (x, rest) →
      queue_list (simtemp_read (run (simtemp_probe none) sample_ops) 16 true false true).1
        = rest ∧
      (simtemp_read (run (simtemp_probe none) sample_ops) 16 true false true).2 = .data x) ∧
    simtemp_read (run (simtemp_probe none) sample_ops) 8 true false true
      = (run (simtemp_probe none) sample_ops, .error (-EINVAL)) ∧
    drain (run (simtemp_probe none) sample_ops).count (run (simtemp_probe none) sample_ops)
      = (queue_list (run (simtemp_probe none) sample_ops)).map read_result.data :=
  ⟨(ring_refines_fifo none sample_ops 500 11 16 true false true).1,
   (ring_refines_fifo none sample_ops 500 11 16 true false true).2.2.2.1 (by decide),
   (ring_refines_fifo none sample_ops 500 11 8 true false true).2.1 (by decide),
   (ring_refines_fifo none sample_ops 500 11 16 true false true).2.2.2.2⟩

/-! ## C4: set_sampling_period -/

/-- C4: for every engine state and every value `ms`, through the ioctl
`SIMTEMP_SET_SAMPLING` (the word read from the caller is `ms`) and through the sysfs
store (the parsed number is `ms`): when 10 ≤ ms ≤ 10000 the call succeeds (returns 0,
respectively the byte count) and the new state is the old one with `sampling_ms = ms`;
when ms < 10 or ms > 10000 the call returns `-EINVAL` and the state is unchanged. -/
theorem set_sampling_period_contract (s : simtemp_dev) (ms count : Nat) (to_user_ok : Bool) :
    ((10 ≤ ms ∧ ms ≤ 10000) →
      simtemp_ioctl s SIMTEMP_SET_SAMPLING (some ms) to_user_ok
        = { dev := { s with sampling_ms := ms }, ret := 0, out := none } ∧
      (simtemp_ioctl s SIMTEMP_SET_SAMPLING (some ms) to_user_ok).dev.sampling_ms = ms ∧
      sampling_ms_store s (.ok ms) count = ({ s with sampling_ms := ms }, (count : Int)) ∧
      (sampling_ms_store s (.ok ms) count).1.sampling_ms = ms) ∧
    ((ms < 10 ∨ ms > 10000) →
      simtemp_ioctl s SIMTEMP_SET_SAMPLING (some ms) to_user_ok
        = { dev := s, ret := -EINVAL, out := none } ∧
      sampling_ms_store s (.ok ms) count = (s, -EINVAL)) := by
  constructor
  · intro hin
    have hnot : ¬ (ms < 10 ∨ ms > 10000) := by omega
    have hw : wrap_u32 ms = ms := by unfold wrap_u32; omega
    simp [simtemp_ioctl, sampling_ms_store, hnot, hw]
  · intro hout
    simp [simtemp_ioctl, sampling_ms_store, hout]

/-- C4 (witness): 250 ms is accepted by both paths on the default engine, 5 ms and
10001 ms are rejected with `-EINVAL` and leave it unchanged. -/
theorem set_sampling_period_contract_witness :
    (simtemp_ioctl (simtemp_probe none) SIMTEMP_SET_SAMPLING (some 250) true).dev.sampling_ms
      = 250 ∧
    (sampling_ms_store (simtemp_probe none) (.ok 250) 4).1.sampling_ms = 250 ∧
    simtemp_ioctl (simtemp_probe none) SIMTEMP_SET_SAMPLING (some 5) true
      = { dev := simtemp_probe none, ret := -EINVAL, out := none } ∧
    sampling_ms_store (simtemp_probe none) (.ok 10001) 6 = (simtemp_probe none, -EINVAL) :=
  ⟨((set_sampling_period_contract (simtemp_probe none) 250 4 true).1 (by decide)).2.1,
   ((set_sampling_period_contract (simtemp_probe none) 250 4 true).1 (by decide)).2.2.2,
   ((set_sampling_period_contract (simtemp_probe none) 5 4 true).2 (by decide)).1,
   ((set_sampling_period_contract (simtemp_probe none) 10001 6 true).2 (by decide)).2⟩

/-! ## C5: set_mode -/

/-- C5: for every engine state and every mode word `m` read from the caller by the ioctl
`SIMTEMP_SET_MODE`: the call returns `-EINVAL` with the state unchanged exactly when `m`
is none of 0 (Normal), 1 (Noisy), 2 (Ramp); for a valid `m` it returns 0 and the mode
becomes `m`; for `m = 2` the new state is the old one with mode 2, `ramp_base = 25000`,
`ramp_direction = true`, whatever the ramp state and mode were, and the next tick generates
26000; for `m = 0` or `m = 1` only the mode field changes. -/
theorem set_mode_contract (s : simtemp_dev) (m : Nat) (to_user_ok : Bool) :
    (((simtemp_ioctl s SIMTEMP_SET_MODE (some m) to_user_ok).ret = -EINVAL ∧
        (simtemp_ioctl s SIMTEMP_SET_MODE (some m) to_user_ok).dev = s) ↔
      ¬ (m = MODE_NORMAL ∨ m = MODE_NOISY ∨ m = MODE_RAMP)) ∧
    ((m = MODE_NORMAL ∨ m = MODE_NOISY ∨ m = MODE_RAMP) →
      (simtemp_ioctl s SIMTEMP_SET_MODE (some m) to_user_ok).ret = 0 ∧
      (simtemp_ioctl s SIMTEMP_SET_MODE (some m) to_user_ok).dev.mode = m) ∧
    (m = MODE_RAMP →
      (simtemp_ioctl s SIMTEMP_SET_MODE (some m) to_user_ok).dev
        = { s with mode := MODE_RAMP, ramp_base := 25000, ramp_direction := true } ∧
      ∀ now rnd,
        (sample_timer_callback (simtemp_ioctl s SIMTEMP_SET_MODE (some m) to_user_ok).dev
          now rnd).sample.temp_mC = 26000) ∧
    ((m = MODE_NORMAL ∨ m = MODE_NOISY) →
      (simtemp_ioctl s SIMTEMP_SET_MODE (some m) to_user_ok).dev = { s with mode := m }) := by
  have hcmd1 : SIMTEMP_SET_MODE ≠ SIMTEMP_SET_SAMPLING := by decide
  have hcmd2 : SIMTEMP_SET_MODE ≠ SIMTEMP_SET_THRESHOLD := by decide
  have hE : (-EINVAL : Int) ≠ 0 := by decide
  by_cases hv : m ≥ MODE_MAX
  · have hnot : ¬ (m = MODE_NORMAL ∨ m = MODE_NOISY ∨ m = MODE_RAMP) := by
      simp only [ MODE_MAX, MODE_NORMAL, MODE_NOISY, MODE_RAMP] at hv ⊢
      omega
    have hnot2 : ¬ (m = MODE_NORMAL ∨ m = MODE_NOISY) := fun h => hnot (by tauto)
    have hnot3 : ¬ (m = MODE_RAMP) := fun h => hnot (by tauto)
    simp [simtemp_ioctl, hcmd1, hcmd2, hv, hnot, hnot2, hnot3]
  · have hval : m = MODE_NORMAL ∨ m = MODE_NOISY ∨ m = MODE_RAMP := by
      simp only [ MODE_MAX, MODE_NORMAL, MODE_NOISY, MODE_RAMP] at hv ⊢
      omega
    by_cases hr : m = MODE_RAMP
    · subst hr
      have hdev : (simtemp_ioctl s SIMTEMP_SET_MODE (some MODE_RAMP) to_user_ok)
          = { dev := { s with mode := MODE_RAMP, ramp_base := 25000, ramp_direction := true },
              ret := 0, out := none } := by
        simp [simtemp_ioctl, hcmd1, hcmd2, hv]
      rw [hdev]
      refine ⟨?_, ?_, ?_, ?_⟩
      · simp [hE.symm]
      · intro _; exact ⟨rfl, rfl⟩
      · intro _
        refine ⟨rfl, ?_⟩
        intro now rnd
        rw [tick_sample]
        simp [simulate_temperature, simulate_temperature_ramp, MODE_RAMP, MODE_NORMAL,
          MODE_NOISY, to_s32]
      · intro h
        rcases h with h | h <;> exact absurd h (by decide)
    · have hdev : (simtemp_ioctl s SIMTEMP_SET_MODE (some m) to_user_ok)
          = { dev := { s with mode := m }, ret := 0, out := none } := by
        simp [simtemp_ioctl, hcmd1, hcmd2, hv, hr]
      rw [hdev]
      refine ⟨?_, ?_, ?_, ?_⟩
      · simp [hval]
        intro h
        exact absurd h (by decide)
      · intro _; exact ⟨rfl, rfl⟩
      · intro h; exact absurd h hr
      · intro _; rfl

/-- C5 (witness): from Ramp mode at base 55000, falling, selecting Ramp again resets
the ramp to base 25000, rising, and the next tick yields 26000; the mode word 3 is
rejected with `-EINVAL`. -/
theorem set_mode_contract_witness :
    (simtemp_ioctl ramp_mid_example SIMTEMP_SET_MODE (some 2) true).dev
      = { ramp_mid_example with
          mode := MODE_RAMP
          ramp_base := 25000
          ramp_direction := true } ∧
    (sample_timer_callback (simtemp_ioctl ramp_mid_example SIMTEMP_SET_MODE (some 2) true).dev
      0 0).sample.temp_mC = 26000 ∧
    ((simtemp_ioctl ramp_mid_example SIMTEMP_SET_MODE (some 3) true).ret = -EINVAL ∧
      (simtemp_ioctl ramp_mid_example SIMTEMP_SET_MODE (some 3) true).dev
        = ramp_mid_example) :=
  ⟨((set_mode_contract ramp_mid_example 2 true).2.2.1 rfl).1,
   ((set_mode_contract ramp_mid_example 2 true).2.2.1 rfl).2 0 0,
   (set_mode_contract ramp_mid_example 3 true).1.mpr (by decide)⟩

/-! ## C6: the ramp model -/

theorem to_s32_of_range (n : Int) (hlo : -2147483648 ≤ n) (hhi : n < 2147483648) :
    to_s32 n = n := by
  unfold to_s32
  omega

/-- C6: for every state whose ramp base lies in [20000, 60000]: a rising step sets the base
to min(base + 1000, 60000) and turns `ramp_direction` to false exactly when
base + 1000 ≥ 60000; a falling step sets the base to max(base - 1000, 20000) and turns
`ramp_direction` to true exactly when base - 1000 ≤ 20000; the returned temperature is the
updated base and lies in [20000, 60000]; no other field changes. -/
theorem ramp_step (s : simtemp_dev) (hlo : 20000 ≤ s.ramp_base) (hhi : s.ramp_base ≤ 60000) :
    (s.ramp_direction = true →
      (simulate_temperature_ramp s).1.ramp_base = min (s.ramp_base + 1000) 60000 ∧
      ((simulate_temperature_ramp s).1.ramp_direction = false ↔ s.ramp_base + 1000 ≥ 60000)) ∧
    (s.ramp_direction = false →
      (simulate_temperature_ramp s).1.ramp_base = max (s.ramp_base - 1000) 20000 ∧
      ((simulate_temperature_ramp s).1.ramp_direction = true ↔ s.ramp_base - 1000 ≤ 20000)) ∧
    (simulate_temperature_ramp s).2 = (simulate_temperature_ramp s).1.ramp_base ∧
    20000 ≤ (simulate_temperature_ramp s).2 ∧ (simulate_temperature_ramp s).2 ≤ 60000 ∧
    (simulate_temperature_ramp s).1 =
      { s with ramp_base := (simulate_temperature_ramp s).1.ramp_base
               ramp_direction := (simulate_temperature_ramp s).1.ramp_direction } := by
  have hup : to_s32 (s.ramp_base + 1000) = s.ramp_base + 1000 :=
    to_s32_of_range _ (by omega) (by omega)
  have hdown : to_s32 (s.ramp_base - 1000) = s.ramp_base - 1000 :=
    to_s32_of_range _ (by omega) (by omega)
  cases hd : s.ramp_direction
  · by_cases hb : s.ramp_base - 1000 ≤ 20000
    · have hres : simulate_temperature_ramp s
          = ({ s with ramp_base := 20000, ramp_direction := true }, 20000) := by
        simp [simulate_temperature_ramp, hd, hdown, hb]
      rw [hres]
      simp [hb]
    · have hres : simulate_temperature_ramp s
          = ({ s with ramp_base := s.ramp_base - 1000 }, s.ramp_base - 1000) := by
        simp [simulate_temperature_ramp, hd, hdown, hb]
      rw [hres]
      simp [hb, hd]
      omega
  · by_cases hb : s.ramp_base + 1000 ≥ 60000
    · have hres : simulate_temperature_ramp s
          = ({ s with ramp_base := 60000, ramp_direction := false }, 60000) := by
        simp [simulate_temperature_ramp, hd, hup, hb]
      rw [hres]
      simp [hb]
    · have hres : simulate_temperature_ramp s
          = ({ s with ramp_base := s.ramp_base + 1000 }, s.ramp_base + 1000) := by
        simp [simulate_temperature_ramp, hd, hup, hb]
      rw [hres]
      simp [hb, hd]
      omega

/-- C6 (witness): from base 59500, rising, the step yields 60000 and `ramp_direction`
becomes false; from base 20500, falling, it yields 20000 and `ramp_direction` becomes true. -/
theorem ramp_step_witness :
    ((simulate_temperature_ramp ramp_top_example).2 = 60000 ∧
      (simulate_temperature_ramp ramp_top_example).1.ramp_direction = false) ∧
    ((simulate_temperature_ramp ramp_bottom_example).2 = 20000 ∧
      (simulate_temperature_ramp ramp_bottom_example).1.ramp_direction = true) :=
  ⟨⟨(ramp_step ramp_top_example (by decide) (by decide)).2.2.1.trans
      ((ramp_step ramp_top_example (by decide) (by decide)).1 rfl).1,
    ((ramp_step ramp_top_example (by decide) (by decide)).1 rfl).2.mpr (by decide)⟩,
   ⟨(ramp_step ramp_bottom_example (by decide) (by decide)).2.2.1.trans
      ((ramp_step ramp_bottom_example (by decide) (by decide)).2.1 rfl).1,
    ((ramp_step ramp_bottom_example (by decide) (by decide)).2.1 rfl).2.mpr (by decide)⟩⟩

/-! ## C7: the Normal and Noisy models -/

/-- C7: for every random value `r` (in particular every 32-bit one),
`simulate_temperature_normal` returns 39000 + r mod 2000, a value in [39000, 41000), i.e.
40000 plus an offset in [-1000, 1000); `simulate_temperature_noisy` returns
35000 + r mod 10000, a value in [35000, 45000), i.e. 40000 plus an offset in
[-5000, 5000). -/
theorem normal_noisy_range (r : Nat) :
    (simulate_temperature_normal r = 39000 + ((r % 2000 : Nat) : Int) ∧
      39000 ≤ simulate_temperature_normal r ∧ simulate_temperature_normal r < 41000 ∧
      -1000 ≤ simulate_temperature_normal r - 40000 ∧
      simulate_temperature_normal r - 40000 < 1000) ∧
    (simulate_temperature_noisy r = 35000 + ((r % 10000 : Nat) : Int) ∧
      35000 ≤ simulate_temperature_noisy r ∧ simulate_temperature_noisy r < 45000 ∧
      -5000 ≤ simulate_temperature_noisy r - 40000 ∧
      simulate_temperature_noisy r - 40000 < 5000) := by
  have h1 : u32_add 40000 (u32_sub (r % 2000) 1000) = 39000 + r % 2000 := by
    unfold u32_add u32_sub
    omega
  have h2 : u32_add 40000 (u32_sub (r % 10000) 5000) = 35000 + r % 10000 := by
    unfold u32_add u32_sub
    omega
  have hn : simulate_temperature_normal r = 39000 + ((r % 2000 : Nat) : Int) := by
    unfold simulate_temperature_normal
    rw [h1, to_s32_of_range _ (by omega) (by omega)]
    push_cast
    rfl
  have hy : simulate_temperature_noisy r = 35000 + ((r % 10000 : Nat) : Int) := by
    unfold simulate_temperature_noisy
    rw [h2, to_s32_of_range _ (by omega) (by omega)]
    push_cast
    rfl
  rw [hn, hy]
  omega

/-! ## C8: the sampling period range -/

theorem ioctl_sampling_ms (s : simtemp_dev) (cmd : Nat) (from_user : Option Nat)
    (to_user_ok : Bool) :
    (simtemp_ioctl s cmd from_user to_user_ok).dev.sampling_ms = s.sampling_ms ∨
    sampling_in_range (simtemp_ioctl s cmd from_user to_user_ok).dev := by
  unfold simtemp_ioctl sampling_in_range
  by_cases h1 : cmd = SIMTEMP_SET_SAMPLING
  · rw [if_pos h1]
    rcases from_user with _ | v
    · simp
    · by_cases hv : v < 10 ∨ v > 10000
      · simp [hv]
      · right
        simp only [if_neg hv]
        omega
  · rw [if_neg h1]
    by_cases h2 : cmd = SIMTEMP_SET_THRESHOLD
    · rw [if_pos h2]
      rcases from_user with _ | v <;> simp
    · rw [if_neg h2]
      by_cases h3 : cmd = SIMTEMP_SET_MODE
      · rw [if_pos h3]
        rcases from_user with _ | v
        · simp
        · by_cases hv : v ≥ MODE_MAX
          · simp [hv]
          · by_cases hr : v = MODE_RAMP
            · subst hr
              simp [show ¬ (MODE_MAX ≤ MODE_RAMP) by decide]
            · simp [hv, hr]
      · rw [if_neg h3]
        by_cases h4 : cmd = SIMTEMP_GET_STATS
        · rw [if_pos h4]
          cases to_user_ok <;> simp
        · rw [if_neg h4]
          simp

theorem sampling_ms_store_sampling_ms (s : simtemp_dev) (parsed : Except Int Nat)
    (count : Nat) :
    (sampling_ms_store s parsed count).1.sampling_ms = s.sampling_ms ∨
    sampling_in_range (sampling_ms_store s parsed count).1 := by
  unfold sampling_ms_store sampling_in_range
  rcases parsed with e | v
  · simp
  · by_cases hv : v < 10 ∨ v > 10000
    · simp [hv]
    · right
      simp only [if_neg hv, wrap_u32]
      omega

theorem step_sampling_ms (s : simtemp_dev) (op : Op) :
    (step s op).sampling_ms = s.sampling_ms ∨ sampling_in_range (step s op) := by
  cases op with
  | tick now rnd => exact Or.inl (tick_config s now rnd).1
  | read count nonblock interrupted copy_ok =>
    left
    show (simtemp_read s count nonblock interrupted copy_ok).1.sampling_ms = _
    by_cases hsize : count < SIZEOF_SAMPLE
    · rw [read_short s count nonblock interrupted copy_ok hsize]
    · by_cases he : s.count = 0
      · rw [read_empty s count nonblock interrupted copy_ok (by omega) he]
      · rw [read_nonempty s count nonblock interrupted copy_ok (by omega) he]
  | poll => exact Or.inl rfl
  | ioctl cmd from_user to_user_ok => exact ioctl_sampling_ms s cmd from_user to_user_ok
  | sampling_store parsed count => exact sampling_ms_store_sampling_ms s parsed count
  | threshold_store parsed count =>
    left
    show (threshold_mC_store s parsed count).1.sampling_ms = _
    unfold threshold_mC_store
    rcases parsed with e | v <;> simp
  | mode_store_op buf count =>
    left
    show (mode_store s buf count).1.sampling_ms = _
    unfold mode_store
    split_ifs <;> simp

theorem step_sampling_in_range (s : simtemp_dev) (op : Op) (h : sampling_in_range s) :
    sampling_in_range (step s op) := by
  rcases step_sampling_ms s op with heq | hin
  · unfold sampling_in_range at h ⊢
    rw [heq]
    exact h
  · exact hin

theorem run_sampling_in_range (ops : List Op) :
    ∀ s : simtemp_dev, sampling_in_range s → sampling_in_range (run s ops) := by
  induction ops with
  | nil => intro s h; exact h
  | cons op rest ih => intro s h; exact ih (step s op) (step_sampling_in_range s op h)

theorem default_run_sampling_in_range (ops : List Op) :
    sampling_in_range (run (simtemp_probe none) ops) :=
  run_sampling_in_range ops _ (by decide)

theorem probe_sampling_from_dt (v : Nat) (thr : Option Nat) :
    (simtemp_probe (some { sampling_ms := some v, threshold_mC := thr })).sampling_ms = v := by
  unfold simtemp_probe
  cases thr <;> rfl

/-- C8 (failing input): probed with a device-tree node whose `sampling-ms` is 5, the
engine starts with `sampling_ms = 5`, outside [10, 10000], and keeps that value through
ticks, a read and a mode change. -/
theorem probe_keeps_unchecked_sampling :
    (simtemp_probe (some dt_fast_node)).sampling_ms = 5 ∧
    ¬ sampling_in_range (simtemp_probe (some dt_fast_node)) ∧
    ¬ sampling_in_range (run (simtemp_probe (some dt_fast_node)) sample_ops) := by
  decide

/-! ## C9: the queue invariant -/

theorem same_queue_queue_inv (s t : simtemp_dev) (hq : same_queue s t) (h : queue_inv s) :
    queue_inv t := by
  obtain ⟨hb, hr, hw, hc⟩ := hq
  unfold queue_inv
  rw [hr, hw, hc]
  exact h

theorem step_same_queue_or (s : simtemp_dev) (op : Op) :
    (∃ now rnd, op = .tick now rnd) ∨
    (∃ count nonblock interrupted copy_ok, op = .read count nonblock interrupted copy_ok) ∨
    same_queue s (step s op) := by
  cases op with
  | tick now rnd => exact Or.inl ⟨now, rnd, rfl⟩
  | read count nonblock interrupted copy_ok =>
    exact Or.inr (Or.inl ⟨count, nonblock, interrupted, copy_ok, rfl⟩)
  | poll => exact Or.inr (Or.inr ⟨rfl, rfl, rfl, rfl⟩)
  | ioctl cmd from_user to_user_ok =>
    exact Or.inr (Or.inr (ioctl_same_queue s cmd from_user to_user_ok))
  | sampling_store parsed count =>
    exact Or.inr (Or.inr (sampling_ms_store_same_queue s parsed count))
  | threshold_store parsed count =>
    exact Or.inr (Or.inr (threshold_mC_store_same_queue s parsed count))
  | mode_store_op buf count =>
    exact Or.inr (Or.inr (mode_store_same_queue s buf count))

theorem tick_queue_inv (s : simtemp_dev) (now rnd : Nat) (h : queue_inv s) :
    queue_inv (sample_timer_callback s now rnd).dev ∧
    (sample_timer_callback s now rnd).dev.buffer.length = s.buffer.length := by
  obtain ⟨hc, hr, hw⟩ := h
  have hri := (tick_config s now rnd).2.2.2.1
  by_cases hroom : s.count < SIMTEMP_MAX_SAMPLES
  · obtain ⟨hb, hwi, hcnt, -, -⟩ := tick_enqueue s now rnd hroom
    unfold queue_inv
    rw [hb, hwi, hcnt, hri, List.length_set]
    simp only [u32_inc, SIMTEMP_MAX_SAMPLES] at hroom hc hr hw ⊢
    exact ⟨⟨by omega, hr, by omega⟩, trivial⟩
  · obtain ⟨hb, hwi, hcnt, -, -⟩ := tick_drop s now rnd hroom
    unfold queue_inv
    rw [hb, hwi, hcnt, hri]
    exact ⟨⟨hc, hr, hw⟩, rfl⟩

theorem read_count (s : simtemp_dev) (count : Nat) (nonblock interrupted copy_ok : Bool)
    (h : queue_inv s) :
    ((simtemp_read s count nonblock interrupted copy_ok).1 = s ∧
      (count < SIZEOF_SAMPLE ∨ s.count = 0)) ∨
    (0 < s.count ∧
      (simtemp_read s count nonblock interrupted copy_ok).1.count + 1 = s.count ∧
      (simtemp_read s count nonblock interrupted copy_ok).1.read_idx < SIMTEMP_MAX_SAMPLES ∧
      (simtemp_read s count nonblock interrupted copy_ok).1.write_idx = s.write_idx ∧
      (simtemp_read s count nonblock interrupted copy_ok).1.buffer = s.buffer) := by
  obtain ⟨hc, hr, hw⟩ := h
  by_cases hsize : count < SIZEOF_SAMPLE
  · rw [read_short s count nonblock interrupted copy_ok hsize]
    exact Or.inl ⟨rfl, Or.inl hsize⟩
  · by_cases he : s.count = 0
    · rw [read_empty s count nonblock interrupted copy_ok (by omega) he]
      exact Or.inl ⟨rfl, Or.inr he⟩
    · rw [read_nonempty s count nonblock interrupted copy_ok (by omega) he]
      right
      simp only [u32_inc, u32_dec, SIMTEMP_MAX_SAMPLES] at hc hr ⊢
      refine ⟨by omega, by omega, by omega, trivial, trivial⟩

theorem read_queue_inv (s : simtemp_dev) (count : Nat) (nonblock interrupted copy_ok : Bool)
    (h : queue_inv s) :
    queue_inv (simtemp_read s count nonblock interrupted copy_ok).1 ∧
    (simtemp_read s count nonblock interrupted copy_ok).1.buffer.length = s.buffer.length := by
  rcases read_count s count nonblock interrupted copy_ok h with ⟨heq, -⟩ | ⟨hpos, hcnt, hri, hwi, hb⟩
  · rw [heq]; exact ⟨h, rfl⟩
  · obtain ⟨hc, hr, hw⟩ := h
    unfold queue_inv
    rw [hwi, hb]
    exact ⟨⟨by omega, hri, hw⟩, rfl⟩

theorem step_queue_inv (s : simtemp_dev) (op : Op) (h : queue_inv s) :
    queue_inv (step s op) ∧ (step s op).buffer.length = s.buffer.length := by
  rcases step_same_queue_or s op with ⟨now, rnd, rfl⟩ | ⟨c, nb, i, ok, rfl⟩ | hq
  · exact tick_queue_inv s now rnd h
  · exact read_queue_inv s c nb i ok h
  · exact ⟨same_queue_queue_inv s _ hq h, by rw [hq.1]⟩

/-- C9: the predicate `count ≤ 32 ∧ read_idx < 32 ∧ write_idx < 32` holds in the freshly
probed engine, whose buffer has 32 slots, and every callback (tick, read - successful or
failed -, poll, ioctl, sysfs store) preserves it together with the buffer size; in a state
that satisfies it the slots `buffer[write_idx]` and `buffer[read_idx]` exist, and a read
either leaves the state untouched (short buffer or empty queue) or finds `count > 0` and
lowers it by exactly one, so `count` never goes below 0. -/
theorem queue_inv_preserved (np : Option device_node) (s : simtemp_dev) (op : Op)
    (hlen : s.buffer.length = SIMTEMP_MAX_SAMPLES) (h : queue_inv s) :
    (queue_inv (simtemp_probe np) ∧
      (simtemp_probe np).buffer.length = SIMTEMP_MAX_SAMPLES) ∧
    (queue_inv (step s op) ∧ (step s op).buffer.length = SIMTEMP_MAX_SAMPLES) ∧
    (s.write_idx < s.buffer.length ∧ s.read_idx < s.buffer.length) ∧
    (∀ count nonblock interrupted copy_ok,
      (simtemp_read s count nonblock interrupted copy_ok).1 = s ∨
      (0 < s.count ∧
        (simtemp_read s count nonblock interrupted copy_ok).1.count + 1 = s.count)) := by
  obtain ⟨hb, hr, hw, hc, -⟩ := probe_queue np
  refine ⟨⟨?_, ?_⟩, ?_, ?_, ?_⟩
  · unfold queue_inv
    rw [hr, hw, hc]
    decide
  · rw [hb, List.length_replicate]
  · obtain ⟨h1, h2⟩ := step_queue_inv s op h
    exact ⟨h1, h2.trans hlen⟩
  · rw [hlen]
    exact ⟨h.2.2, h.2.1⟩
  · intro count nonblock interrupted copy_ok
    rcases read_count s count nonblock interrupted copy_ok h with ⟨heq, -⟩ | ⟨hpos, hcnt, -⟩
    · exact Or.inl heq
    · exact Or.inr ⟨hpos, hcnt⟩

/-- C9 (witness): on the default engine after three ticks, the invariant holds before and
after a successful read, which lowers `count` from 3 to 2. -/
theorem queue_inv_preserved_witness :
    queue_inv (ticks (simtemp_probe none) [(100, 7), (200, 8), (300, 9)]) ∧
    queue_inv (step (ticks (simtemp_probe none) [(100, 7), (200, 8), (300, 9)])
      (.read 16 true false true)) ∧
    (step (ticks (simtemp_probe none) [(100, 7), (200, 8), (300, 9)])
      (.read 16 true false true)).count = 2 :=
  ⟨by decide,
   (queue_inv_preserved none (ticks (simtemp_probe none) [(100, 7), (200, 8), (300, 9)])
     (.read 16 true false true) (by decide) (by decide)).2.1.1,
   by decide⟩

/-! ## C10: poll -/

/-- C10: for every engine state, `simtemp_poll` returns the state unchanged; the mask is
`EPOLLIN | EPOLLRDNORM | EPOLLPRI` (0x43) when `count > 0` and `EPOLLPRI` (0x2) when
`count = 0`: the readable bits are set exactly when the queue is non-empty and the
priority bit is set in every state. -/
theorem poll_mask (s : simtemp_dev) :
    (simtemp_poll s).1 = s ∧
    ((simtemp_poll s).2 &&& (EPOLLIN ||| EPOLLRDNORM) = EPOLLIN ||| EPOLLRDNORM ↔
      s.count > 0) ∧
    ((simtemp_poll s).2 &&& (EPOLLIN ||| EPOLLRDNORM) = 0 ↔ s.count = 0) ∧
    (simtemp_poll s).2 &&& EPOLLPRI = EPOLLPRI ∧
    (simtemp_poll s).2 = if s.count > 0 then 0x43 else 0x2 := by
  by_cases hc : s.count > 0
  · have hmask : (simtemp_poll s).2 = 0x43 := by
      simp only [simtemp_poll, hc, if_true]
      decide
    have hne : s.count ≠ 0 := by omega
    rw [hmask]
    refine ⟨rfl, ?_, ?_, by decide, by simp [hc]⟩
    · exact ⟨fun _ => hc, fun _ => by decide⟩
    · exact ⟨fun h => absurd h (by decide), fun h => absurd h hne⟩
  · have hmask : (simtemp_poll s).2 = 0x2 := by
      simp only [simtemp_poll, hc, if_false]
      decide
    have h0 : s.count = 0 := by omega
    rw [hmask]
    refine ⟨rfl, ?_, ?_, by decide, by simp [hc]⟩
    · exact ⟨fun h => absurd h (by decide), fun h => absurd h hc⟩
    · exact ⟨fun _ => h0, fun _ => by decide⟩

/-! ## C11: Normal mode below the threshold never alerts -/

theorem simulate_temperature_normal_lt (r : Nat) : simulate_temperature_normal r < 41000 := by
  have h1 : u32_add 40000 (u32_sub (r % 2000) 1000) = 39000 + r % 2000 := by
    unfold u32_add u32_sub
    omega
  unfold simulate_temperature_normal
  rw [h1, to_s32_of_range _ (by omega) (by omega)]
  omega

theorem normal_no_alert (s : simtemp_dev) (rnd : Nat) (hmode : s.mode = MODE_NORMAL)
    (hthr : 41000 ≤ s.threshold_mC) : ¬ alert_cond s rnd := by
  have hgen : (simulate_temperature s rnd).2 = simulate_temperature_normal rnd := by
    simp [simulate_temperature, hmode]
  have hlt := simulate_temperature_normal_lt rnd
  unfold alert_cond
  rw [hgen]
  omega

theorem normal_tick_quiet (s : simtemp_dev) (now rnd : Nat) (hmode : s.mode = MODE_NORMAL)
    (hthr : 41000 ≤ s.threshold_mC) :
    (sample_timer_callback s now rnd).sample.flags = FLAG_NEW_SAMPLE ∧
    (sample_timer_callback s now rnd).new_alert = false ∧
    (sample_timer_callback s now rnd).dev.stats.alerts_triggered = s.stats.alerts_triggered := by
  have hc := normal_no_alert s rnd hmode hthr
  have hF : FLAG_NEW_SAMPLE = 1 := by decide
  rw [tick_sample, tick_new_alert, tick_alerts, hF]
  simp [hc]

theorem read_frame (s : simtemp_dev) (count : Nat) (nonblock interrupted copy_ok : Bool) :
    (simtemp_read s count nonblock interrupted copy_ok).1.mode = s.mode ∧
    (simtemp_read s count nonblock interrupted copy_ok).1.threshold_mC = s.threshold_mC ∧
    (simtemp_read s count nonblock interrupted copy_ok).1.stats = s.stats := by
  by_cases hsize : count < SIZEOF_SAMPLE
  · rw [read_short s count nonblock interrupted copy_ok hsize]
    exact ⟨rfl, rfl, rfl⟩
  · by_cases he : s.count = 0
    · rw [read_empty s count nonblock interrupted copy_ok (by omega) he]
      exact ⟨rfl, rfl, rfl⟩
    · rw [read_nonempty s count nonblock interrupted copy_ok (by omega) he]
      simp

theorem read_data_mem (s : simtemp_dev) (count : Nat) (nonblock interrupted copy_ok : Bool)
    (h : ring_inv s) (x : simtemp_sample)
    (hx : (simtemp_read s count nonblock interrupted copy_ok).2 = .data x) :
    x ∈ queue_list s := by
  by_cases hsize : count < SIZEOF_SAMPLE
  · rw [read_short s count nonblock interrupted copy_ok hsize] at hx
    simp at hx
  · by_cases he : s.count = 0
    · rw [read_empty s count nonblock interrupted copy_ok (by omega) he] at hx
      cases nonblock <;> cases interrupted <;> simp at hx
    · have hq := read_queue_list s count nonblock interrupted copy_ok (by omega) h he
      rw [read_nonempty s count nonblock interrupted copy_ok (by omega) he] at hx
      cases copy_ok
      · simp at hx
      · simp at hx
        subst hx
        rw [hq]
        simp

theorem read_queue_subset (s : simtemp_dev) (count : Nat) (nonblock interrupted copy_ok : Bool)
    (h : ring_inv s) (x : simtemp_sample)
    (hx : x ∈ queue_list (simtemp_read s count nonblock interrupted copy_ok).1) :
    x ∈ queue_list s := by
  by_cases hsize : count < SIZEOF_SAMPLE
  · rw [read_short s count nonblock interrupted copy_ok hsize] at hx
    exact hx
  · by_cases he : s.count = 0
    · rw [read_empty s count nonblock interrupted copy_ok (by omega) he] at hx
      exact hx
    · rw [read_queue_list s count nonblock interrupted copy_ok (by omega) h he]
      exact List.mem_cons_of_mem _ hx

theorem step_quiet_inv (s : simtemp_dev) (op : Op) (hop : no_reconfig op = true)
    (h : quiet_inv s) : quiet_inv (step s op) := by
  obtain ⟨hring, hmode, hthr, hal, hq⟩ := h
  cases op with
  | tick now rnd =>
    obtain ⟨hfl, -, hal2⟩ := normal_tick_quiet s now rnd hmode hthr
    have hcfg := tick_config s now rnd
    refine ⟨tick_ring_inv s now rnd hring, ?_, ?_, ?_, ?_⟩
    · exact hcfg.2.2.1.trans hmode
    · show 41000 ≤ (sample_timer_callback s now rnd).dev.threshold_mC
      rw [hcfg.2.1]; exact hthr
    · exact hal2.trans hal
    · intro x hx
      change x ∈ queue_list (sample_timer_callback s now rnd).dev at hx
      rw [tick_queue_list s now rnd hring] at hx
      unfold spec_fifo_enqueue at hx
      split_ifs at hx
      · rcases List.mem_append.mp hx with hx1 | hx1
        · exact hq x hx1
        · rw [List.mem_singleton.mp hx1]; exact hfl
      · exact hq x hx
  | read count nonblock interrupted copy_ok =>
    obtain ⟨h1, h2, h3⟩ := read_frame s count nonblock interrupted copy_ok
    refine ⟨read_ring_inv s count nonblock interrupted copy_ok hring, ?_, ?_, ?_, ?_⟩
    · exact h1.trans hmode
    · show 41000 ≤ (simtemp_read s count nonblock interrupted copy_ok).1.threshold_mC
      rw [h2]; exact hthr
    · show (simtemp_read s count nonblock interrupted copy_ok).1.stats.alerts_triggered = 0
      rw [h3]; exact hal
    · intro x hx
      exact hq x (read_queue_subset s count nonblock interrupted copy_ok hring x hx)
  | poll => exact ⟨hring, hmode, hthr, hal, hq⟩
  | ioctl cmd from_user to_user_ok => simp [no_reconfig] at hop
  | sampling_store parsed count => simp [no_reconfig] at hop
  | threshold_store parsed count => simp [no_reconfig] at hop
  | mode_store_op buf count => simp [no_reconfig] at hop

theorem run_quiet_inv (ops : List Op) :
    ∀ s : simtemp_dev, quiet_inv s → ops.all no_reconfig = true → quiet_inv (run s ops) := by
  induction ops with
  | nil => intro s h _; exact h
  | cons op rest ih =>
    intro s h hall
    rw [List.all_cons, Bool.and_eq_true] at hall
    exact ih (step s op) (step_quiet_inv s op hall.1 h) hall.2

theorem run_samples_quiet (ops : List Op) :
    ∀ s : simtemp_dev, quiet_inv s → ops.all no_reconfig = true →
      ∀ x ∈ run_samples s ops, x.flags = FLAG_NEW_SAMPLE := by
  induction ops with
  | nil => intro s _ _ x hx; simp [run_samples] at hx
  | cons op rest ih =>
    intro s h hall x hx
    rw [List.all_cons, Bool.and_eq_true] at hall
    unfold run_samples at hx
    rcases List.mem_append.mp hx with hx1 | hx1
    · cases op with
      | tick now rnd =>
        simp only [op_sample, List.mem_singleton] at hx1
        rw [hx1]
        exact (normal_tick_quiet s now rnd h.2.1 h.2.2.1).1
      | read count nonblock interrupted copy_ok => simp [op_sample] at hx1
      | poll => simp [op_sample] at hx1
      | ioctl cmd from_user to_user_ok => simp [op_sample] at hx1
      | sampling_store parsed count => simp [op_sample] at hx1
      | threshold_store parsed count => simp [op_sample] at hx1
      | mode_store_op buf count => simp [op_sample] at hx1
    · exact ih (step s op) (step_quiet_inv s op hall.1 h) hall.2 x hx1

theorem probe_default_quiet_inv : quiet_inv (simtemp_probe none) := by
  refine ⟨probe_ring_inv none, rfl, by decide, rfl, ?_⟩
  intro x hx
  have hq0 : queue_list (simtemp_probe none) = [] := by
    simp [queue_list, (probe_queue none).2.2.2.1]
  rw [hq0] at hx
  simp at hx

/-- C11: in Normal mode with `threshold_mC ≥ 41000`, for every stored temperature, clock
and random value, the tick builds a sample whose flags are exactly `NEW_SAMPLE` (the
`THRESHOLD_CROSSED` bit is clear), wakes no poller for an alert and leaves
`alerts_triggered` unchanged. Hence on an engine probed with the defaults and driven by any
sequence of ticks, reads and polls, `alerts_triggered` is 0, every sample built by a tick
has flags exactly `NEW_SAMPLE`, and so has every sample still buffered and every sample a
further read hands out. -/
theorem normal_mode_never_alerts (s : simtemp_dev) (now rnd : Nat) (ops : List Op)
    (count : Nat) (nonblock interrupted copy_ok : Bool)
    (hmode : s.mode = MODE_NORMAL) (hthr : 41000 ≤ s.threshold_mC)
    (hops : ops.all no_reconfig = true) :
    ((sample_timer_callback s now rnd).sample.flags = FLAG_NEW_SAMPLE ∧
      (sample_timer_callback s now rnd).sample.flags &&& FLAG_THRESHOLD_CROSSED = 0 ∧
      (sample_timer_callback s now rnd).new_alert = false ∧
      (sample_timer_callback s now rnd).dev.stats.alerts_triggered
        = s.stats.alerts_triggered) ∧
    ((run (simtemp_probe none) ops).stats.alerts_triggered = 0 ∧
      (∀ x ∈ run_samples (simtemp_probe none) ops, x.flags = FLAG_NEW_SAMPLE) ∧
      (∀ x ∈ queue_list (run (simtemp_probe none) ops), x.flags = FLAG_NEW_SAMPLE) ∧
      (∀ x, (simtemp_read (run (simtemp_probe none) ops) count nonblock interrupted
          copy_ok).2 = .data x → x.flags = FLAG_NEW_SAMPLE)) := by
  obtain ⟨hfl, hna, hal⟩ := normal_tick_quiet s now rnd hmode hthr
  have hinv := run_quiet_inv ops (simtemp_probe none) probe_default_quiet_inv hops
  refine ⟨⟨hfl, ?_, hna, hal⟩, hinv.2.2.2.1,
    run_samples_quiet ops (simtemp_probe none) probe_default_quiet_inv hops, hinv.2.2.2.2, ?_⟩
  · rw [hfl]; decide
  · intro x hx
    exact hinv.2.2.2.2 x
      (read_data_mem _ count nonblock interrupted copy_ok hinv.1 x hx)

/-- C11 (witness): on the default engine with a stored temperature of 42000 (above the
threshold 41000) the tick with random value 1999 generates 40999 and raises no alert; after
the run `quiet_ops` the alert counter is 0 and the four samples built all carry flags 0x1. -/
theorem normal_mode_never_alerts_witness :
    (simulate_temperature hot_default 1999).2 = 40999 ∧
    (sample_timer_callback hot_default 0 1999).sample.flags = 1 ∧
    (sample_timer_callback hot_default 0 1999).dev.stats.alerts_triggered = 0 ∧
    (run (simtemp_probe none) quiet_ops).stats.alerts_triggered = 0 ∧
    (run_samples (simtemp_probe none) quiet_ops).map (fun x => x.flags) = [1, 1, 1, 1] :=
  ⟨by decide,
   (normal_mode_never_alerts hot_default 0 1999 quiet_ops 16 true false true
     rfl (by decide) rfl).1.1,
   (normal_mode_never_alerts hot_default 0 1999 quiet_ops 16 true false true
     rfl (by decide) rfl).1.2.2.2,
   (normal_mode_never_alerts hot_default 0 1999 quiet_ops 16 true false true
     rfl (by decide) rfl).2.1,
   by decide⟩

end Simtemp
